import Mathlib

/-!
# Franka controllers: trajectory primitives and orientation snapping

A shallow embedding of

* `CollisionDetectionController::quintic_spline`
  (`src/collision_detection_controller.cpp`), and
* `keepOrientationPerpenticular` / `keepOrientationPerpenticularOnlyXY`
  (`torque_joint_space_controller_sy_dual_pin.h`).

The C++ code computes in `double`.  The embedding is stated over an arbitrary
linearly ordered field `K` (exact arithmetic): every definition is computable,
can be evaluated at `K = ℚ`, and every theorem also holds at `K = ℝ`.
-/

/-! ## Eigen fixed-size vectors and matrices -/

/-- An `Eigen::Vector3d`: the coefficients `(0)`, `(1)`, `(2)`. -/
structure Vector3d (K : Type) where
  x : K
  y : K
  z : K
deriving DecidableEq, Repr

/-- An `Eigen::Matrix3d`, `mij` being the coefficient `(i, j)`; the comma
initialiser `M << ...` fills it row by row. -/
structure Matrix3d (K : Type) where
  m00 : K
  m01 : K
  m02 : K
  m10 : K
  m11 : K
  m12 : K
  m20 : K
  m21 : K
  m22 : K
deriving DecidableEq, Repr

namespace Matrix3d

variable {K : Type} [LinearOrderedField K]

/-- The determinant as Eigen's 3x3 inverse computes it: the cofactors of the
first column times the first column. -/
def det (m : Matrix3d K) : K :=
  (m.m11 * m.m22 - m.m12 * m.m21) * m.m00
    + (m.m21 * m.m02 - m.m22 * m.m01) * m.m10
    + (m.m01 * m.m12 - m.m02 * m.m11) * m.m20

/-- The fixed-size `inverse()` of Eigen for a 3x3 matrix: the transposed
cofactor matrix times `1 / det`.  In the field `K` the quotient `1 / 0` is `0`,
where the floating-point code would produce infinities. -/
def inverse (m : Matrix3d K) : Matrix3d K :=
  let invdet := 1 / m.det
  { m00 := (m.m11 * m.m22 - m.m12 * m.m21) * invdet
    m01 := (m.m21 * m.m02 - m.m22 * m.m01) * invdet
    m02 := (m.m01 * m.m12 - m.m02 * m.m11) * invdet
    m10 := (m.m12 * m.m20 - m.m10 * m.m22) * invdet
    m11 := (m.m22 * m.m00 - m.m20 * m.m02) * invdet
    m12 := (m.m02 * m.m10 - m.m00 * m.m12) * invdet
    m20 := (m.m10 * m.m21 - m.m11 * m.m20) * invdet
    m21 := (m.m20 * m.m01 - m.m21 * m.m00) * invdet
    m22 := (m.m00 * m.m11 - m.m01 * m.m10) * invdet }

/-- The `inverse()` of Eigen with its division tracked: `none` when the
determinant is zero, where `1 / det` divides by zero (the floating-point code
goes on with an infinite `invdet` and returns NaN coefficients); otherwise the
matrix `inverse`. -/
def checkedInverse (m : Matrix3d K) : Option (Matrix3d K) :=
  if m.det = 0 then none else some m.inverse

/-- The product of a matrix and a column vector. -/
def mulVec (m : Matrix3d K) (v : Vector3d K) : Vector3d K :=
  { x := m.m00 * v.x + m.m01 * v.y + m.m02 * v.z
    y := m.m10 * v.x + m.m11 * v.y + m.m12 * v.z
    z := m.m20 * v.x + m.m21 * v.y + m.m22 * v.z }

/-- The product of two matrices. -/
def mul (a b : Matrix3d K) : Matrix3d K :=
  { m00 := a.m00 * b.m00 + a.m01 * b.m10 + a.m02 * b.m20
    m01 := a.m00 * b.m01 + a.m01 * b.m11 + a.m02 * b.m21
    m02 := a.m00 * b.m02 + a.m01 * b.m12 + a.m02 * b.m22
    m10 := a.m10 * b.m00 + a.m11 * b.m10 + a.m12 * b.m20
    m11 := a.m10 * b.m01 + a.m11 * b.m11 + a.m12 * b.m21
    m12 := a.m10 * b.m02 + a.m11 * b.m12 + a.m12 * b.m22
    m20 := a.m20 * b.m00 + a.m21 * b.m10 + a.m22 * b.m20
    m21 := a.m20 * b.m01 + a.m21 * b.m11 + a.m22 * b.m21
    m22 := a.m20 * b.m02 + a.m21 * b.m12 + a.m22 * b.m22 }

end Matrix3d

/-! ## `CollisionDetectionController::quintic_spline` -/

namespace CollisionDetectionController

variable {K : Type} [LinearOrderedField K]

/-- The boundary matrix `Temp` of `quintic_spline` for the duration `time_s`. -/
def boundaryMatrix (time_s : K) : Matrix3d K :=
  { m00 := time_s ^ 3, m01 := time_s ^ 4, m02 := time_s ^ 5
    m10 := 3 * time_s ^ 2, m11 := 4 * time_s ^ 3, m12 := 5 * time_s ^ 4
    m20 := 6 * time_s, m21 := 12 * time_s ^ 2, m22 := 20 * time_s ^ 3 }

/-- The boundary residual `R_temp` of `quintic_spline`. -/
def boundaryResidual (time_s x_0 x_dot_0 x_ddot_0 x_f x_dot_f x_ddot_f : K) : Vector3d K :=
  { x := x_f - x_0 - x_dot_0 * time_s - x_ddot_0 * time_s ^ 2 / 2
    y := x_dot_f - x_dot_0 - x_ddot_0 * time_s
    z := x_ddot_f - x_ddot_0 }

/-- The function `quintic_spline`: the result vector holds position, velocity
and acceleration in the coefficients `x`, `y`, `z`. -/
def quintic_spline (time time_0 time_f x_0 x_dot_0 x_ddot_0 x_f x_dot_f x_ddot_f : K) :
    Vector3d K :=
  if time < time_0 then
    { x := x_0, y := x_dot_0, z := x_ddot_0 }
  else if time > time_f then
    { x := x_f, y := x_dot_f, z := x_ddot_f }
  else
    let time_s := time_f - time_0
    let a1 := x_0
    let a2 := x_dot_0
    let a3 := x_ddot_0 / 2
    let Temp := boundaryMatrix time_s
    let R_temp := boundaryResidual time_s x_0 x_dot_0 x_ddot_0 x_f x_dot_f x_ddot_f
    let RES := Temp.inverse.mulVec R_temp
    let a4 := RES.x
    let a5 := RES.y
    let a6 := RES.z
    let time_fs := time - time_0
    let position := a1 + a2 * time_fs ^ 1 + a3 * time_fs ^ 2 + a4 * time_fs ^ 3
      + a5 * time_fs ^ 4 + a6 * time_fs ^ 5
    let velocity := a2 + 2 * a3 * time_fs ^ 1 + 3 * a4 * time_fs ^ 2 + 4 * a5 * time_fs ^ 3
      + 5 * a6 * time_fs ^ 4
    let acceleration := 2 * a3 + 6 * a4 * time_fs ^ 1 + 12 * a5 * time_fs ^ 2
      + 20 * a6 * time_fs ^ 3
    { x := position, y := velocity, z := acceleration }

/-- The function `quintic_spline` with the division inside `Temp.inverse()`
tracked: the same statements in the same order, and `none` when the inverse
divides by zero, where the exact result is undefined (the floating-point code
returns NaN there). -/
def quintic_spline_checked
    (time time_0 time_f x_0 x_dot_0 x_ddot_0 x_f x_dot_f x_ddot_f : K) :
    Option (Vector3d K) :=
  if time < time_0 then
    some { x := x_0, y := x_dot_0, z := x_ddot_0 }
  else if time > time_f then
    some { x := x_f, y := x_dot_f, z := x_ddot_f }
  else
    let time_s := time_f - time_0
    let a1 := x_0
    let a2 := x_dot_0
    let a3 := x_ddot_0 / 2
    let Temp := boundaryMatrix time_s
    let R_temp := boundaryResidual time_s x_0 x_dot_0 x_ddot_0 x_f x_dot_f x_ddot_f
    Temp.checkedInverse.map fun Temp_inverse =>
      let RES := Temp_inverse.mulVec R_temp
      let a4 := RES.x
      let a5 := RES.y
      let a6 := RES.z
      let time_fs := time - time_0
      let position := a1 + a2 * time_fs ^ 1 + a3 * time_fs ^ 2 + a4 * time_fs ^ 3
        + a5 * time_fs ^ 4 + a6 * time_fs ^ 5
      let velocity := a2 + 2 * a3 * time_fs ^ 1 + 3 * a4 * time_fs ^ 2 + 4 * a5 * time_fs ^ 3
        + 5 * a6 * time_fs ^ 4
      let acceleration := 2 * a3 + 6 * a4 * time_fs ^ 1 + 12 * a5 * time_fs ^ 2
        + 20 * a6 * time_fs ^ 3
      { x := position, y := velocity, z := acceleration }

end CollisionDetectionController

/-! ## Orientation snapping (`torque_joint_space_controller_sy_dual_pin.h`) -/

namespace Vector3d

variable {K : Type} [LinearOrderedField K]

/-- The scalar multiple `c * v`. -/
def smul (c : K) (v : Vector3d K) : Vector3d K :=
  { x := c * v.x, y := c * v.y, z := c * v.z }

/-- The sum `v + w`. -/
def add (v w : Vector3d K) : Vector3d K :=
  { x := v.x + w.x, y := v.y + w.y, z := v.z + w.z }

/-- The opposite `-v`. -/
def neg (v : Vector3d K) : Vector3d K :=
  { x := -v.x, y := -v.y, z := -v.z }

end Vector3d

/-- The functions and the constant of `math_type_define.h` (namespace
`DyrosMath`) that the orientation helpers call.  That header is not among the
sources, so they are parameters of the embedding. -/
structure DyrosMath (K : Type) where
  /-- The constant `DEG2RAD`. -/
  DEG2RAD : K
  /-- The function `rot2Euler`: roll, pitch and yaw of a rotation matrix. -/
  rot2Euler : Matrix3d K → Vector3d K
  /-- The function `cubic(time, time_0, time_f, x_0, x_f, x_dot_0, x_dot_f)`. -/
  cubic : K → K → K → K → K → K → K → K
  /-- The function `rotateWithX`. -/
  rotateWithX : K → Matrix3d K
  /-- The function `rotateWithY`. -/
  rotateWithY : K → Matrix3d K
  /-- The function `rotateWithZ`. -/
  rotateWithZ : K → Matrix3d K
  /-- The function `getPhi`. -/
  getPhi : Matrix3d K → Matrix3d K → Vector3d K

/-- Modelled from the spec: `DyrosMath::cubic` of `math_type_define.h`, which
is not among the sources.  The degree-3 analogue of `quintic_spline`: the cubic
with position and rate `x_0, x_dot_0` at `time_0` and `x_f, x_dot_f` at
`time_f`, clamped to `x_0` before `time_0` and to `x_f` after `time_f`. -/
def cubicSpline {K : Type} [LinearOrderedField K]
    (time time_0 time_f x_0 x_f x_dot_0 x_dot_f : K) : K :=
  if time < time_0 then x_0
  else if time > time_f then x_f
  else
    let elapsed_time := time - time_0
    let total_time := time_f - time_0
    let total_x := x_f - x_0
    x_0 + x_dot_0 * elapsed_time
      + (3 * total_x / total_time ^ 2 - 2 * x_dot_0 / total_time - x_dot_f / total_time)
          * elapsed_time ^ 2
      + (-2 * total_x / total_time ^ 3 + (x_dot_0 + x_dot_f) / total_time ^ 2)
          * elapsed_time ^ 3

namespace OrientationAligner

variable {K : Type} [LinearOrderedField K]

/-- The vector `angle_set_45` after `angle_set_45 = angle_set_45 * DEG2RAD`:
the angles -180, -90, 0, 90, 180 degrees at the indices 0 to 4. -/
def angle_set_45 (DEG2RAD : K) : Fin 5 → K :=
  ![-180 * DEG2RAD, -90 * DEG2RAD, 0 * DEG2RAD, 90 * DEG2RAD, 180 * DEG2RAD]

/-- The first loop: `angle_set_error(i) = fabs(angle_set_45(i) - angle)`. -/
def angle_set_error (DEG2RAD angle : K) : Fin 5 → K :=
  fun i => |angle_set_45 DEG2RAD i - angle|

/-- The reduction `minCoeff()` of a `Vector5d`. -/
def minCoeff (v : Fin 5 → K) : K :=
  min (min (min (min (v 0) (v 1)) (v 2)) (v 3)) (v 4)

/-- The second loop,
`for (i = 0; i < 5; i++) if (angle_set_error(i) == angle_set_error.minCoeff()) index = i;`.
The variable `index` is declared without a value: `none` stands for it until
the loop assigns it. -/
def selectIndex (err : Fin 5 → K) : Option (Fin 5) :=
  ([0, 1, 2, 3, 4] : List (Fin 5)).foldl
    (fun index i => if err i = minCoeff err then some i else index) none

/-- The two loops and the read `angle_set_45(index)`: the canonical angle the
given angle is snapped to (`none`: `index` was read without having been
assigned). -/
def snapAngle (DEG2RAD angle : K) : Option K :=
  (selectIndex (angle_set_error DEG2RAD angle)).map (angle_set_45 DEG2RAD)

/-- The three branches of `keepOrientationPerpenticular`, named as its
comments name them. -/
inductive Branch where
  | upward
  | downward
  | onXYPlane
deriving DecidableEq, Repr

/-- The branch conditions of `keepOrientationPerpenticular`, with
`val = initial_rotation_M(2, 2)` and `e = 1.0 - fabs(val)`. -/
def selectBranch (DEG2RAD val : K) : Branch :=
  let e := 1 - |val|
  if val > 0 ∧ e ≤ 0.01 * DEG2RAD then Branch.upward
  else if val < 0 ∧ e ≤ 0.01 * DEG2RAD then Branch.downward
  else Branch.onXYPlane

/-- The values of `roll`, `pitch`, `yaw` (coefficients `x`, `y`, `z`) that
`keepOrientationPerpenticular` holds after its `if` chain, from
`euler_angle = rot2Euler(initial_rotation_M)` and `val`. -/
def perpendicularTarget (DEG2RAD : K) (euler_angle : Vector3d K) (val : K) :
    Option (Vector3d K) :=
  let roll := euler_angle.x
  match selectBranch DEG2RAD val with
  | Branch.upward =>
    (snapAngle DEG2RAD euler_angle.z).map fun yaw => { x := 0, y := 0, z := yaw }
  | Branch.downward =>
    let roll := if roll > 0 then 180 * DEG2RAD else -180 * DEG2RAD
    (snapAngle DEG2RAD euler_angle.z).map fun yaw => { x := roll, y := 0, z := yaw }
  | Branch.onXYPlane =>
    (snapAngle DEG2RAD euler_angle.y).map fun pitch =>
      { x := euler_angle.x, y := pitch, z := euler_angle.z }

/-- The values of `roll`, `pitch`, `yaw` that
`keepOrientationPerpenticularOnlyXY` holds after its `if`. -/
def perpendicularTargetOnlyXY (DEG2RAD : K) (euler_angle : Vector3d K) (val : K) :
    Vector3d K :=
  let roll := euler_angle.x
  let yaw := euler_angle.z
  if val > 0 then { x := 0, y := 0, z := yaw }
  else
    let roll := if roll > 0 then 180 * DEG2RAD else -180 * DEG2RAD
    { x := roll, y := 0, z := yaw }

/-- The three calls of `DyrosMath::cubic` that give `alpha`, `beta`, `gamma`
(coefficients `x`, `y`, `z`); `target` holds `roll`, `pitch`, `yaw`. -/
def interpolatedAngles (cubic : K → K → K → K → K → K → K → K)
    (euler_angle target : Vector3d K) (duration current_time init_time : K) : Vector3d K :=
  { x := cubic current_time init_time (init_time + duration) euler_angle.x target.x 0 0
    y := cubic current_time init_time (init_time + duration) euler_angle.y target.y 0 0
    z := cubic current_time init_time (init_time + duration) euler_angle.z target.z 0 0 }

/-- The end of both helpers: the target rotation from `alpha`, `beta`, `gamma`,
the rotation error and the moment `gain * delphi_delta + 5.0 * (-tail<3>)`. -/
def moment (D : DyrosMath K) (gain : K) (rotation_M : Matrix3d K)
    (current_velocity : Fin 6 → K) (angles : Vector3d K) : Vector3d K :=
  let target_rotation_M :=
    ((D.rotateWithZ angles.z).mul (D.rotateWithY angles.y)).mul (D.rotateWithX angles.x)
  let delphi_delta := Vector3d.smul (-0.5) (D.getPhi rotation_M target_rotation_M)
  let tail3 : Vector3d K :=
    { x := current_velocity 3, y := current_velocity 4, z := current_velocity 5 }
  Vector3d.add (Vector3d.smul (1.0 * gain) delphi_delta) (Vector3d.smul 5.0 (Vector3d.neg tail3))

/-- The function `keepOrientationPerpenticular`; `none` when the uninitialised
`index` would be read. -/
def keepOrientationPerpenticular (D : DyrosMath K) (initial_rotation_M rotation_M : Matrix3d K)
    (current_velocity : Fin 6 → K) (duration current_time init_time : K) :
    Option (Vector3d K) :=
  let euler_angle := D.rot2Euler initial_rotation_M
  let val := initial_rotation_M.m22
  (perpendicularTarget D.DEG2RAD euler_angle val).map fun target =>
    moment D 250.0 rotation_M current_velocity
      (interpolatedAngles D.cubic euler_angle target duration current_time init_time)

/-- The function `keepOrientationPerpenticularOnlyXY`. -/
def keepOrientationPerpenticularOnlyXY (D : DyrosMath K)
    (initial_rotation_M rotation_M : Matrix3d K)
    (current_velocity : Fin 6 → K) (duration current_time init_time : K) : Vector3d K :=
  let euler_angle := D.rot2Euler initial_rotation_M
  let val := initial_rotation_M.m22
  let target := perpendicularTargetOnlyXY D.DEG2RAD euler_angle val
  moment D 400.0 rotation_M current_velocity
    (interpolatedAngles D.cubic euler_angle target duration current_time init_time)

/-- The law of the spec, `Kp * rotationError - Kd * angularVelocity`, written
from the spec's words for comparison with `moment`. -/
def springDamper (Kp Kd : K) (rotationError angularVelocity : Vector3d K) : Vector3d K :=
  { x := Kp * rotationError.x - Kd * angularVelocity.x
    y := Kp * rotationError.y - Kd * angularVelocity.y
    z := Kp * rotationError.z - Kd * angularVelocity.z }

/-- The rotation error of the spec: `-0.5` times `getPhi` of the current
rotation and the target rotation `rotateWithZ * rotateWithY * rotateWithX` of
the interpolated angles. -/
def rotationError (D : DyrosMath K) (rotation_M : Matrix3d K) (angles : Vector3d K) :
    Vector3d K :=
  Vector3d.smul (-0.5) (D.getPhi rotation_M
    (((D.rotateWithZ angles.z).mul (D.rotateWithY angles.y)).mul (D.rotateWithX angles.x)))

/-- The angular velocity of the spec: the last three coefficients of
`current_velocity`. -/
def angularVelocity (current_velocity : Fin 6 → K) : Vector3d K :=
  { x := current_velocity 3, y := current_velocity 4, z := current_velocity 5 }

/-- A stand-in for `math_type_define.h` over `ℚ`, for concrete instances only:
`getPhi` is constantly zero, the rotations are the identity, `rot2Euler` is
constantly zero and `cubic` is the cubic of the spec. -/
def zeroPhiMath : DyrosMath ℚ :=
  { DEG2RAD := 7 / 400
    rot2Euler := fun _ => { x := 0, y := 0, z := 0 }
    cubic := cubicSpline
    rotateWithX := fun _ => Matrix3d.mk 1 0 0 0 1 0 0 0 1
    rotateWithY := fun _ => Matrix3d.mk 1 0 0 0 1 0 0 0 1
    rotateWithZ := fun _ => Matrix3d.mk 1 0 0 0 1 0 0 0 1
    getPhi := fun _ _ => { x := 0, y := 0, z := 0 } }

end OrientationAligner

/-! ## `CollisionDetectionController`: `init`, `update`, `wait`, `exec`, `rest` -/

namespace CollisionDetectionController

variable {K : Type} [LinearOrderedField K]

/-- The enumeration `MODE`. -/
inductive MODE where
  | WAIT
  | EXEC
  | REST
deriving DecidableEq, Repr

/-- A point of `random_plan.trajectory_.joint_trajectory.points`, its
`time_from_start` already converted by `toSec()`. -/
structure JointTrajectoryPoint (K : Type) where
  positions : List K
  velocities : List K
  accelerations : List K
  time_from_start : K

/-- The read `v[i]` of a `std::vector` at an integer index; `none` when the
index is out of bounds, where the C++ read is undefined. -/
def vectorAt {α : Type} (v : List α) (i : Int) : Option α :=
  if 0 ≤ i then v[i.toNat]? else none

/-- The write `v[i] = a` of a `std::vector`; `none` when the index is out of
bounds, where the C++ write is undefined. -/
def vectorSet {α : Type} (v : List α) (i : Nat) (a : α) : Option (List α) :=
  if i < v.length then some (v.set i a) else none

/-- The seven coefficients `v[0]`, ..., `v[6]` of a `std::vector<double>`;
`none` when one of the reads is out of bounds. -/
def readJoints (v : List K) : Option (Fin 7 → K) :=
  if h : 7 ≤ v.length then some (fun i => v.get ⟨i.val, lt_of_lt_of_le i.isLt h⟩) else none

/-- The member variables that `update`, `wait`, `exec` and `rest` use.  The
header that declares them is not among the sources: `waypoint` and `waypoints`
are integers here, and `points` stands for
`random_plan.trajectory_.joint_trajectory.points`. -/
structure Controller (K : Type) where
  mode : MODE
  generate_random_motion : Bool
  random_motion_generated : Bool
  waiting : Bool
  executing : Bool
  resting : Bool
  start_time : K
  end_time : K
  waypoint : Int
  waypoints : Int
  points : List (JointTrajectoryPoint K)

/-- The function `wait` (with `generateNewMotion` and `checkForNewMotion`):
the new state, `q_desired` and `qd_desired`. -/
def wait (c : Controller K) (q : Fin 7 → K) : Controller K × (Fin 7 → K) × (Fin 7 → K) :=
  let c := if !c.waiting then { c with generate_random_motion := true, waiting := true } else c
  let result := c.random_motion_generated
  let c := if result then { c with random_motion_generated := false } else c
  let c := if result then { c with waiting := false, mode := MODE.EXEC } else c
  (c, fun i => q i, fun _ => 0)

/-- The function `rest`: the new state, `q_desired` and `qd_desired`. -/
def rest (c : Controller K) (current_time : K) :
    Option (Controller K × (Fin 7 → K) × (Fin 7 → K)) :=
  let c := if !c.resting then
      { c with resting := true, start_time := current_time, end_time := current_time + 1.0 }
    else c
  let c := if current_time > c.end_time then { c with resting := false, mode := MODE.WAIT } else c
  (vectorAt c.points (c.waypoints - 1)).bind fun p =>
    (readJoints p.positions).bind fun q_desired =>
      (readJoints p.velocities).map fun qd_desired => (c, q_desired, qd_desired)

/-- The block `if (!executing)` at the head of `exec`. -/
def execStart (c : Controller K) (current_time : K) : Option (Controller K) :=
  if !c.executing then
    let start_time := current_time
    let waypoints : Int := c.points.length
    (vectorAt c.points (waypoints - 1)).map fun p =>
      { c with start_time := start_time, waypoints := waypoints, waypoint := 0,
               end_time := p.time_from_start + start_time, executing := true }
  else some c

/-- The loop
`while (waypoint < waypoints) { waypoint++; if (current_time < points[waypoint].time_from_start.toSec() + start_time) break; }`:
the value of `waypoint` after the loop, `none` when `points[waypoint]` is read
out of bounds. -/
def searchWaypoint (points : List (JointTrajectoryPoint K)) (start_time current_time : K)
    (waypoints : Int) (waypoint : Int) : Option Int :=
  if waypoint < waypoints then
    match vectorAt points (waypoint + 1) with
    | none => none
    | some p =>
      if current_time < p.time_from_start + start_time then some (waypoint + 1)
      else searchWaypoint points start_time current_time waypoints (waypoint + 1)
  else some waypoint
termination_by (waypoints - waypoint).toNat
decreasing_by omega

set_option linter.unusedVariables false in
/-- The six assignments to `x_0`, `x_dot_0`, `x_ddot_0` in the body of the
spline loop of `exec`, for the joint `i`: the values the three variables hold
at the call of `quintic_spline`. -/
def splineStart (points : List (JointTrajectoryPoint K)) (waypoint : Int) (i : Nat) :
    Option (K × K × K) := do
  let x_0 ← (vectorAt points waypoint).bind fun p => p.positions[i]?
  let x_dot_0 ← (vectorAt points waypoint).bind fun p => p.velocities[i]?
  let x_ddot_0 ← (vectorAt points waypoint).bind fun p => p.accelerations[i]?
  let x_0 ← (vectorAt points (waypoint + 1)).bind fun p => p.positions[i]?
  let x_dot_0 ← (vectorAt points (waypoint + 1)).bind fun p => p.velocities[i]?
  let x_ddot_0 ← (vectorAt points (waypoint + 1)).bind fun p => p.accelerations[i]?
  pure (x_0, x_dot_0, x_ddot_0)

/-- The body of the spline loop of `exec` for the joint `i`: the assignments
and `cmd[i] = quintic_spline(...)`.  The variables `x_f`, `x_dot_f`, `x_ddot_f`
are declared and never assigned; the values they happen to hold are arguments. -/
def splineStep (points : List (JointTrajectoryPoint K)) (waypoint : Int)
    (current_time interval_start_time interval_end_time x_f x_dot_f x_ddot_f : K)
    (cmd : List (Vector3d K)) (i : Nat) : Option (List (Vector3d K)) :=
  (splineStart points waypoint i).bind fun start =>
    vectorSet cmd i (quintic_spline current_time interval_start_time interval_end_time
      start.1 start.2.1 start.2.2 x_f x_dot_f x_ddot_f)

/-- The second loop of `exec`: `q_desired(i) = cmd[i](0)` and
`qd_desired(i) = cmd[i](1)` for `i = 0, ..., 6`. -/
def readCommands (cmd : List (Vector3d K)) : Option ((Fin 7 → K) × (Fin 7 → K)) :=
  if h : 7 ≤ cmd.length then
    some (fun i => (cmd.get ⟨i.val, lt_of_lt_of_le i.isLt h⟩).x,
      fun i => (cmd.get ⟨i.val, lt_of_lt_of_le i.isLt h⟩).y)
  else none

/-- The function `exec`: the new state, `q_desired` and `qd_desired`; `none`
when a vector is accessed out of bounds.  The local `cmd` is declared as an
empty `std::vector<Eigen::Vector3d>` and never resized. -/
def exec (c : Controller K) (current_time x_f x_dot_f x_ddot_f : K) :
    Option (Controller K × (Fin 7 → K) × (Fin 7 → K)) :=
  let cmd : List (Vector3d K) := []
  (execStart c current_time).bind fun c =>
    if current_time > c.end_time then
      rest { c with executing := false, mode := MODE.REST } current_time
    else
      (searchWaypoint c.points c.start_time current_time c.waypoints c.waypoint).bind
        fun waypoint =>
          let waypoint := waypoint - 1
          let c := { c with waypoint := waypoint }
          (vectorAt c.points waypoint).bind fun p0 =>
            let interval_start_time := p0.time_from_start + c.start_time
            (vectorAt c.points (waypoint + 1)).bind fun p1 =>
              let interval_end_time := p1.time_from_start + c.start_time
              (([0, 1, 2, 3, 4, 5, 6] : List Nat).foldlM
                (splineStep c.points waypoint current_time interval_start_time
                  interval_end_time x_f x_dot_f x_ddot_f) cmd).bind fun cmd =>
                (readCommands cmd).map fun desired => (c, desired.1, desired.2)

/-- The line `tau_cmd = mass_matrix * (kp * (q_desired - q) + kv * (qd_desired - qd)) + coriolis`
of `update`, with `kp = 1500` and `kv = 10`. -/
def tau_cmd (mass_matrix : Fin 7 → Fin 7 → K) (coriolis q qd q_desired qd_desired : Fin 7 → K) :
    Fin 7 → K :=
  let kp : K := 1500
  let kv : K := 10
  fun i => (∑ j, mass_matrix i j * (kp * (q_desired j - q j) + kv * (qd_desired j - qd j)))
    + coriolis i

/-- The `switch (mode)` of `update`. -/
def dispatch (c : Controller K) (q : Fin 7 → K) (current_time x_f x_dot_f x_ddot_f : K) :
    Option (Controller K × (Fin 7 → K) × (Fin 7 → K)) :=
  match c.mode with
  | MODE.WAIT => some (wait c q)
  | MODE.EXEC => exec c current_time x_f x_dot_f x_ddot_f
  | MODE.REST => rest c current_time

/-- The function `update`: the new state and the command that
`joint_handles_[i].setCommand(tau_cmd(i))` gives to each joint `i`. -/
def update (c : Controller K) (mass_matrix : Fin 7 → Fin 7 → K) (coriolis q qd : Fin 7 → K)
    (current_time x_f x_dot_f x_ddot_f : K) : Option (Controller K × (Fin 7 → K)) :=
  (dispatch c q current_time x_f x_dot_f x_ddot_f).map fun r =>
    (r.1, fun i => tau_cmd mass_matrix coriolis q qd r.2.1 r.2.2 i)

/-- What `init` finds outside the controller: the two parameters read with
`node_handle.getParam` (`none`: the call returns false), whether each hardware
interface is present, whether each `getHandle` returns rather than throws,
whether the step `n` of the MPSSE set-up returns `FT_OK`, the number of FTDI
devices, and whether the log file opens. -/
structure InitEnvironment where
  arm_id : Option String
  joint_names : Option (List String)
  has_model_interface : Bool
  model_handle_found : String → Bool
  has_state_interface : Bool
  state_handle_found : String → Bool
  has_effort_joint_interface : Bool
  joint_handle_found : String → Bool
  ft_ok : Nat → Bool
  num_devs : Nat
  log_opens : Bool

/-- What `init` leaves behind: its return value, the handles acquired, whether
the FTDI device and the log file are left open, the flag `ft232h` (`none`: not
assigned), and whether the final block that sets `mode = WAIT` and the other
mode fields was run. -/
structure InitOutcome where
  result : Bool
  model_handle_ : Option String
  state_handle_ : Option String
  joint_handles_ : List String
  ft_handle_open : Bool
  ft232h : Option Bool
  log_open : Bool
  mode_fields_set : Bool
deriving DecidableEq, Repr

/-- The loop of `init` that pushes the joint handles: the handles pushed, and
`false` when a `getHandle` has thrown. -/
def acquireJointHandles (found : String → Bool) (joint_names : List String) :
    List String × Bool :=
  ([0, 1, 2, 3, 4, 5, 6] : List Nat).foldl
    (fun acc i =>
      if acc.2 then
        match joint_names[i]? with
        | some name => if found name then (acc.1 ++ [name], true) else (acc.1, false)
        | none => (acc.1, false)
      else acc)
    ([], true)

/-- The function `CollisionDetectionController::init`. -/
def init (env : InitEnvironment) : InitOutcome :=
  let nothing : InitOutcome :=
    { result := false, model_handle_ := none, state_handle_ := none, joint_handles_ := [],
      ft_handle_open := false, ft232h := none, log_open := false, mode_fields_set := false }
  match env.arm_id with
  | none => nothing
  | some arm_id =>
    match env.joint_names with
    | none => nothing
    | some joint_names =>
      if joint_names.length ≠ 7 then nothing
      else if !env.has_model_interface then nothing
      else if !env.model_handle_found (arm_id ++ "_model") then nothing
      else
        let o1 := { nothing with model_handle_ := some (arm_id ++ "_model") }
        if !env.has_state_interface then o1
        else if !env.state_handle_found (arm_id ++ "_robot") then o1
        else
          let o2 := { o1 with state_handle_ := some (arm_id ++ "_robot") }
          if !env.has_effort_joint_interface then o2
          else
            let handles := acquireJointHandles env.joint_handle_found joint_names
            let o3 := { o2 with joint_handles_ := handles.1 }
            if !handles.2 then o3
            else if !env.ft_ok 1 then { o3 with ft232h := some false }
            else if env.num_devs < 1 then o3
            else
              match ([2, 3, 4, 5, 6, 7, 8, 9, 10, 11] : List Nat).find? (fun n => !env.ft_ok n) with
              | some _ => { o3 with ft232h := some false }
              | none =>
                let o4 := { o3 with ft232h := some true }
                if !env.log_opens then o4
                else
                  { o4 with ft_handle_open := true, log_open := true, mode_fields_set := true,
                            result := true }

/-- A plan of two waypoints, at the times 0 and 1, with seven joints each, for
concrete instances. -/
def twoPointPlan : List (JointTrajectoryPoint ℚ) :=
  [{ positions := [10, 10, 10, 10, 10, 10, 10], velocities := [11, 11, 11, 11, 11, 11, 11],
     accelerations := [12, 12, 12, 12, 12, 12, 12], time_from_start := 0 },
   { positions := [20, 20, 20, 20, 20, 20, 20], velocities := [21, 21, 21, 21, 21, 21, 21],
     accelerations := [22, 22, 22, 22, 22, 22, 22], time_from_start := 1 }]

/-- A controller in the given mode that has started neither an execution nor a
rest, holding `twoPointPlan`, for concrete instances. -/
def freshController (mode : MODE) : Controller ℚ :=
  { mode := mode, generate_random_motion := false, random_motion_generated := false,
    waiting := false, executing := false, resting := false, start_time := 0, end_time := 0,
    waypoint := 0, waypoints := 2, points := twoPointPlan }

end CollisionDetectionController

/-! ## Theorems -/

namespace Matrix3d

variable {K : Type} [LinearOrderedField K]

/-- Where the determinant is not zero, `inverse` is a right inverse. -/
theorem mulVec_inverse_mulVec (m : Matrix3d K) (hd : m.det ≠ 0) (v : Vector3d K) :
    m.mulVec (m.inverse.mulVec v) = v := by
  have hi : m.det * (1 / m.det) = 1 := mul_one_div_cancel hd
  simp only [mulVec, inverse]
  generalize 1 / m.det = i at hi
  simp only [det] at hi
  obtain ⟨vx, vy, vz⟩ := v
  congr 1
  · linear_combination vx * hi
  · linear_combination vy * hi
  · linear_combination vz * hi

/-- Where the determinant is not zero, `inverse` is a left inverse. -/
theorem inverse_mulVec_mulVec (m : Matrix3d K) (hd : m.det ≠ 0) (v : Vector3d K) :
    m.inverse.mulVec (m.mulVec v) = v := by
  have hi : m.det * (1 / m.det) = 1 := mul_one_div_cancel hd
  simp only [mulVec, inverse]
  generalize 1 / m.det = i at hi
  simp only [det] at hi
  obtain ⟨vx, vy, vz⟩ := v
  congr 1
  · linear_combination vx * hi
  · linear_combination vy * hi
  · linear_combination vz * hi

end Matrix3d


namespace CollisionDetectionController

variable {K : Type} [LinearOrderedField K]

theorem boundaryMatrix_det (s : K) : (boundaryMatrix s).det = 2 * s ^ 9 := by
  simp only [boundaryMatrix, Matrix3d.det]
  ring

theorem boundaryMatrix_det_ne_zero {s : K} (hs : s ≠ 0) : (boundaryMatrix s).det ≠ 0 := by
  rw [boundaryMatrix_det]
  exact mul_ne_zero two_ne_zero (pow_ne_zero 9 hs)

/-- The coefficients `a4, a5, a6` solve the boundary system `Temp * RES = R_temp`. -/
theorem boundary_solve {s : K} (hs : s ≠ 0) (R : Vector3d K) :
    (boundaryMatrix s).mulVec ((boundaryMatrix s).inverse.mulVec R) = R :=
  Matrix3d.mulVec_inverse_mulVec _ (boundaryMatrix_det_ne_zero hs) R

theorem quintic_spline_inside (t t0 tf x0 v0 a0 xf vf af : K) (h0 : t0 ≤ t) (hf : t ≤ tf) :
    quintic_spline t t0 tf x0 v0 a0 xf vf af =
      (let RES := (boundaryMatrix (tf - t0)).inverse.mulVec
          (boundaryResidual (tf - t0) x0 v0 a0 xf vf af)
       { x := x0 + v0 * (t - t0) ^ 1 + a0 / 2 * (t - t0) ^ 2 + RES.x * (t - t0) ^ 3
            + RES.y * (t - t0) ^ 4 + RES.z * (t - t0) ^ 5
         y := v0 + 2 * (a0 / 2) * (t - t0) ^ 1 + 3 * RES.x * (t - t0) ^ 2
            + 4 * RES.y * (t - t0) ^ 3 + 5 * RES.z * (t - t0) ^ 4
         z := 2 * (a0 / 2) + 6 * RES.x * (t - t0) ^ 1 + 12 * RES.y * (t - t0) ^ 2
            + 20 * RES.z * (t - t0) ^ 3 }) := by
  have h1 : ¬ t < t0 := not_lt.mpr h0
  have h2 : ¬ t > tf := not_lt.mpr hf
  simp only [quintic_spline, h1, h2, if_false]

theorem quintic_spline_at_start (t0 tf x0 v0 a0 xf vf af : K) (h : t0 ≤ tf) :
    quintic_spline t0 t0 tf x0 v0 a0 xf vf af = ⟨x0, v0, a0⟩ := by
  rw [quintic_spline_inside _ _ _ _ _ _ _ _ _ le_rfl h]
  simp only [sub_self]
  congr 1 <;> ring

theorem quintic_spline_at_end (t0 tf x0 v0 a0 xf vf af : K) (h : t0 < tf) :
    quintic_spline tf t0 tf x0 v0 a0 xf vf af = ⟨xf, vf, af⟩ := by
  rw [quintic_spline_inside _ _ _ _ _ _ _ _ _ h.le le_rfl]
  have hs : tf - t0 ≠ 0 := sub_ne_zero.mpr (ne_of_gt h)
  have key := boundary_solve hs (boundaryResidual (tf - t0) x0 v0 a0 xf vf af)
  generalize (boundaryMatrix (tf - t0)).inverse.mulVec
    (boundaryResidual (tf - t0) x0 v0 a0 xf vf af) = RES at key ⊢
  have hx := congrArg Vector3d.x key
  have hy := congrArg Vector3d.y key
  have hz := congrArg Vector3d.z key
  simp only [Matrix3d.mulVec, boundaryMatrix, boundaryResidual] at hx hy hz
  dsimp only
  congr 1
  · linear_combination hx
  · linear_combination hy
  · linear_combination hz

/-! ### Polynomials of degree at most five -/

open Polynomial in
theorem derivative_taylor_comm (r : K) (p : Polynomial K) :
    derivative (taylor r p) = taylor r (derivative p) := by
  simp only [taylor_apply, derivative_comp, derivative_add, derivative_X, derivative_C, add_zero,
    one_mul]

open Polynomial in
theorem quintic_expand (q : Polynomial K) (h : q.natDegree ≤ 5) :
    q = C (q.coeff 0) + C (q.coeff 1) * X + C (q.coeff 2) * X ^ 2 + C (q.coeff 3) * X ^ 3
      + C (q.coeff 4) * X ^ 4 + C (q.coeff 5) * X ^ 5 := by
  conv_lhs => rw [q.as_sum_range' 6 (by omega)]
  simp [Finset.sum_range_succ, ← C_mul_X_pow_eq_monomial]

open Polynomial in
/-- A polynomial of degree at most five, and its first two derivatives, written
in powers of the offset `y` from `t0`. -/
theorem quintic_shifted (p : Polynomial K) (h : p.natDegree ≤ 5) (t0 : K) :
    ∃ c0 c1 c2 c3 c4 c5 : K,
      (∀ y, p.eval (y + t0) = c0 + c1 * y + c2 * y ^ 2 + c3 * y ^ 3 + c4 * y ^ 4 + c5 * y ^ 5) ∧
      (∀ y, (derivative p).eval (y + t0)
          = c1 + 2 * c2 * y + 3 * c3 * y ^ 2 + 4 * c4 * y ^ 3 + 5 * c5 * y ^ 4) ∧
      (∀ y, (derivative (derivative p)).eval (y + t0)
          = 2 * c2 + 6 * c3 * y + 12 * c4 * y ^ 2 + 20 * c5 * y ^ 3) := by
  have hq := quintic_expand (taylor t0 p) (by rw [natDegree_taylor]; exact h)
  refine ⟨(taylor t0 p).coeff 0, (taylor t0 p).coeff 1, (taylor t0 p).coeff 2,
    (taylor t0 p).coeff 3, (taylor t0 p).coeff 4, (taylor t0 p).coeff 5, ?_, ?_, ?_⟩
  · intro y
    rw [← taylor_eval, hq]
    simp
  · intro y
    rw [← taylor_eval, ← derivative_taylor_comm, hq]
    simp
    ring
  · intro y
    rw [← taylor_eval, ← derivative_taylor_comm, ← derivative_taylor_comm, hq]
    simp
    ring

/-! ### The claims on `quintic_spline` -/

/-- C1: for `t0 < tf` and all boundary values, `quintic_spline` evaluated at
`time = t0` returns exactly `(x0, v0, a0)` and evaluated at `time = tf` returns
exactly `(xf, vf, af)`. -/
theorem quintic_spline_boundary_values (t0 tf x0 v0 a0 xf vf af : K) (h : t0 < tf) :
    quintic_spline t0 t0 tf x0 v0 a0 xf vf af = { x := x0, y := v0, z := a0 } ∧
    quintic_spline tf t0 tf x0 v0 a0 xf vf af = { x := xf, y := vf, z := af } :=
  ⟨quintic_spline_at_start t0 tf x0 v0 a0 xf vf af h.le,
    quintic_spline_at_end t0 tf x0 v0 a0 xf vf af h⟩

theorem quintic_spline_boundary_values_witness :
    (0 : ℚ) < 2 ∧
    quintic_spline (0 : ℚ) 0 2 1 2 3 4 5 6 = { x := 1, y := 2, z := 3 } ∧
    quintic_spline (2 : ℚ) 0 2 1 2 3 4 5 6 = { x := 4, y := 5, z := 6 } :=
  ⟨by norm_num, quintic_spline_boundary_values 0 2 1 2 3 4 5 6 (by norm_num)⟩

/-- C2: for `t0 < tf`, `quintic_spline` returns the start tuple `(x0, v0, a0)`
unchanged for every `time < t0` and the end tuple `(xf, vf, af)` unchanged for
every `time > tf`, however far outside the segment the time lies. -/
theorem quintic_spline_clamped (t0 tf x0 v0 a0 xf vf af : K) (h : t0 < tf) :
    (∀ time, time < t0 →
      quintic_spline time t0 tf x0 v0 a0 xf vf af = { x := x0, y := v0, z := a0 }) ∧
    (∀ time, time > tf →
      quintic_spline time t0 tf x0 v0 a0 xf vf af = { x := xf, y := vf, z := af }) := by
  constructor
  · intro time ht
    simp only [quintic_spline, ht, if_true]
  · intro time ht
    have h1 : ¬ time < t0 := not_lt.mpr (h.le.trans ht.le)
    simp only [quintic_spline, h1, ht, if_true, if_false]

theorem quintic_spline_clamped_witness :
    (0 : ℚ) < 2 ∧
    (∀ time : ℚ, time < 0 →
      quintic_spline time 0 2 1 2 3 4 5 6 = { x := 1, y := 2, z := 3 }) ∧
    (∀ time : ℚ, time > 2 →
      quintic_spline time 0 2 1 2 3 4 5 6 = { x := 4, y := 5, z := 6 }) :=
  ⟨by norm_num, quintic_spline_clamped 0 2 1 2 3 4 5 6 (by norm_num)⟩

open Polynomial in
/-- C3: for `t0 < tf`, any polynomial `p` of degree at most 5 that meets the six
boundary conditions (`p`, `p'`, `p''` at `t0` and at `tf`) agrees with the
position returned by `quintic_spline` at every time of `[t0, tf]`, and the
returned velocity and acceleration are `p'` and `p''` there. -/
theorem quintic_spline_unique_polynomial (t0 tf x0 v0 a0 xf vf af : K) (h : t0 < tf)
    (p : Polynomial K) (hdeg : p.natDegree ≤ 5)
    (hx0 : p.eval t0 = x0) (hv0 : (derivative p).eval t0 = v0)
    (ha0 : (derivative (derivative p)).eval t0 = a0)
    (hxf : p.eval tf = xf) (hvf : (derivative p).eval tf = vf)
    (haf : (derivative (derivative p)).eval tf = af)
    (t : K) (ht0 : t0 ≤ t) (htf : t ≤ tf) :
    quintic_spline t t0 tf x0 v0 a0 xf vf af =
      { x := p.eval t, y := (derivative p).eval t, z := (derivative (derivative p)).eval t } := by
  obtain ⟨c0, c1, c2, c3, c4, c5, e0, e1, e2⟩ := quintic_shifted p hdeg t0
  have hs : tf - t0 ≠ 0 := sub_ne_zero.mpr (ne_of_gt h)
  have b0 := e0 0
  have b1 := e1 0
  have b2 := e2 0
  have f0 := e0 (tf - t0)
  have f1 := e1 (tf - t0)
  have f2 := e2 (tf - t0)
  have g0 := e0 (t - t0)
  have g1 := e1 (t - t0)
  have g2 := e2 (t - t0)
  simp only [zero_add, sub_add_cancel, hx0, hv0, ha0, hxf, hvf, haf] at b0 b1 b2 f0 f1 f2 g0 g1 g2
  have hR : boundaryResidual (tf - t0) x0 v0 a0 xf vf af
      = (boundaryMatrix (tf - t0)).mulVec { x := c3, y := c4, z := c5 } := by
    simp only [boundaryResidual, boundaryMatrix, Matrix3d.mulVec]
    congr 1
    · linear_combination f0 - b0 - (tf - t0) * b1 - (tf - t0) ^ 2 / 2 * b2
    · linear_combination f1 - b1 - (tf - t0) * b2
    · linear_combination f2 - b2
  rw [quintic_spline_inside _ _ _ _ _ _ _ _ _ ht0 htf, hR,
    Matrix3d.inverse_mulVec_mulVec _ (boundaryMatrix_det_ne_zero hs)]
  dsimp only
  rw [g0, g1, g2]
  congr 1
  · linear_combination b0 + (t - t0) * b1 + (t - t0) ^ 2 / 2 * b2
  · linear_combination b1 + (t - t0) * b2
  · linear_combination b2

open Polynomial in
theorem quintic_spline_unique_polynomial_witness :
    quintic_spline (1 / 2 : ℚ) 0 1 0 0 0 1 5 20 =
      { x := (X ^ 5 : Polynomial ℚ).eval (1 / 2)
        y := (derivative (X ^ 5 : Polynomial ℚ)).eval (1 / 2)
        z := (derivative (derivative (X ^ 5 : Polynomial ℚ))).eval (1 / 2) } :=
  quintic_spline_unique_polynomial 0 1 0 0 0 1 5 20 (by norm_num) (X ^ 5)
    (by simp) (by simp) (by simp) (by simp) (by simp) (by norm_num) (by norm_num)
    (1 / 2) (by norm_num) (by norm_num)

/-- C4: for `t0 < t1 < t2` and a boundary tuple `(x1, v1, a1)`, the segment on
`[t0, t1]` that ends in the tuple and the segment on `[t1, t2]` that starts
from it return the same position and the same velocity at the shared time
`t1`, namely `x1` and `v1`. -/
theorem quintic_spline_continuous_at_boundary
    (t0 t1 t2 x0 v0 a0 x1 v1 a1 x2 v2 a2 : K) (h01 : t0 < t1) (h12 : t1 < t2) :
    (quintic_spline t1 t0 t1 x0 v0 a0 x1 v1 a1).x = x1 ∧
    (quintic_spline t1 t1 t2 x1 v1 a1 x2 v2 a2).x = x1 ∧
    (quintic_spline t1 t0 t1 x0 v0 a0 x1 v1 a1).y = v1 ∧
    (quintic_spline t1 t1 t2 x1 v1 a1 x2 v2 a2).y = v1 := by
  rw [quintic_spline_at_end t0 t1 x0 v0 a0 x1 v1 a1 h01,
    quintic_spline_at_start t1 t2 x1 v1 a1 x2 v2 a2 h12.le]
  exact ⟨rfl, rfl, rfl, rfl⟩

theorem quintic_spline_continuous_at_boundary_witness :
    (0 : ℚ) < 1 ∧ (1 : ℚ) < 3 ∧
    (quintic_spline (1 : ℚ) 0 1 0 0 0 2 (-1) 4).x = 2 ∧
    (quintic_spline (1 : ℚ) 1 3 2 (-1) 4 7 0 0).x = 2 ∧
    (quintic_spline (1 : ℚ) 0 1 0 0 0 2 (-1) 4).y = -1 ∧
    (quintic_spline (1 : ℚ) 1 3 2 (-1) 4 7 0 0).y = -1 :=
  ⟨by norm_num, by norm_num,
    quintic_spline_continuous_at_boundary 0 1 3 0 0 0 2 (-1) 4 7 0 0 (by norm_num) (by norm_num)⟩

/-! ### The boundary matrix -/

theorem boundaryMatrix_zero : boundaryMatrix (0 : K) = Matrix3d.mk 0 0 0 0 0 0 0 0 0 := by
  simp [boundaryMatrix]

/-- The boundary matrix has an inverse exactly when the duration is not zero. -/
theorem boundaryMatrix_invertible_iff (s : K) :
    (∃ N : Matrix3d K, ∀ v, (boundaryMatrix s).mulVec (N.mulVec v) = v ∧
        N.mulVec ((boundaryMatrix s).mulVec v) = v) ↔ s ≠ 0 := by
  constructor
  · rintro ⟨N, hN⟩ hs
    have h := (hN { x := 1, y := 0, z := 0 }).1
    rw [hs, boundaryMatrix_zero] at h
    have hx := congrArg Vector3d.x h
    simp [Matrix3d.mulVec] at hx
  · intro hs
    exact ⟨(boundaryMatrix s).inverse, fun v =>
      ⟨Matrix3d.mulVec_inverse_mulVec _ (boundaryMatrix_det_ne_zero hs) v,
        Matrix3d.inverse_mulVec_mulVec _ (boundaryMatrix_det_ne_zero hs) v⟩⟩

/-- The tracked inverse of the boundary matrix is undefined exactly when the
duration is zero. -/
theorem boundaryMatrix_checkedInverse_eq_none_iff (s : K) :
    (boundaryMatrix s).checkedInverse = none ↔ s = 0 := by
  unfold Matrix3d.checkedInverse
  constructor
  · intro h
    by_contra hs
    rw [if_neg (boundaryMatrix_det_ne_zero hs)] at h
    exact absurd h (by simp)
  · intro hs
    rw [if_pos (by rw [boundaryMatrix_det, hs]; simp)]

theorem boundaryMatrix_checkedInverse_of_ne_zero {s : K} (hs : s ≠ 0) :
    (boundaryMatrix s).checkedInverse = some (boundaryMatrix s).inverse := by
  unfold Matrix3d.checkedInverse
  rw [if_neg (boundaryMatrix_det_ne_zero hs)]

/-- Wherever a clamp applies or the duration is not zero, the tracked function
is defined and returns what `quintic_spline` returns. -/
theorem quintic_spline_checked_eq_some (time t0 tf x0 v0 a0 xf vf af : K)
    (h : time < t0 ∨ time > tf ∨ tf - t0 ≠ 0) :
    quintic_spline_checked time t0 tf x0 v0 a0 xf vf af
      = some (quintic_spline time t0 tf x0 v0 a0 xf vf af) := by
  unfold quintic_spline_checked quintic_spline
  by_cases h1 : time < t0
  · simp only [h1, if_true]
  by_cases h2 : time > tf
  · simp only [h1, h2, if_true, if_false]
  have hs : tf - t0 ≠ 0 := by
    rcases h with h | h | h
    · exact absurd h h1
    · exact absurd h h2
    · exact h
  simp only [h1, h2, if_false, boundaryMatrix_checkedInverse_of_ne_zero hs, Option.map_some']

/-- The tracked function is undefined exactly at `time = t0 = tf`. -/
theorem quintic_spline_checked_eq_none_iff (time t0 tf x0 v0 a0 xf vf af : K) :
    quintic_spline_checked time t0 tf x0 v0 a0 xf vf af = none ↔ (time = t0 ∧ tf = t0) := by
  constructor
  · intro h
    by_cases hc : time < t0 ∨ time > tf ∨ tf - t0 ≠ 0
    · rw [quintic_spline_checked_eq_some _ _ _ _ _ _ _ _ _ hc] at h
      exact absurd h (by simp)
    · simp only [not_or, not_lt, not_not] at hc
      obtain ⟨h1, h2, h3⟩ := hc
      have htf : tf = t0 := sub_eq_zero.mp h3
      exact ⟨le_antisymm (htf ▸ h2) h1, htf⟩
  · rintro ⟨ht, htf⟩
    rw [ht, htf]
    have h1 : ¬ t0 < t0 := lt_irrefl _
    have h0 : (boundaryMatrix (t0 - t0)).checkedInverse = none :=
      (boundaryMatrix_checkedInverse_eq_none_iff _).mpr (sub_self _)
    simp only [quintic_spline_checked, h1, gt_iff_lt, if_false, h0, Option.map_none']

/-- At `time = t0 = tf = 0` with the boundary values 1, ..., 6 the function
reaches the division by the determinant zero. -/
theorem quintic_spline_checked_degenerate_example :
    quintic_spline_checked (0 : ℚ) 0 0 1 2 3 4 5 6 = none :=
  (quintic_spline_checked_eq_none_iff (0 : ℚ) 0 0 1 2 3 4 5 6).mpr ⟨rfl, rfl⟩

/-- C15: the boundary matrix that `quintic_spline` inverts has determinant
`2 * (tf - t0) ^ 9` and is invertible if and only if `tf - t0` is not zero; for
`tf - t0 > 0` the solve is well defined at every time (the inverse exists, is
the two-sided inverse, and the function returns a value); with `tf = t0` and
`time = t0` neither clamp condition holds, the matrix to invert is the zero
matrix, whose inverse divides by zero, and no guard of the function returns
before that: the result is undefined. -/
theorem boundary_matrix_invertibility (t0 tf : K) :
    (boundaryMatrix (tf - t0)).det = 2 * (tf - t0) ^ 9 ∧
    ((∃ N : Matrix3d K, ∀ v, (boundaryMatrix (tf - t0)).mulVec (N.mulVec v) = v ∧
        N.mulVec ((boundaryMatrix (tf - t0)).mulVec v) = v) ↔ tf - t0 ≠ 0) ∧
    ((boundaryMatrix (tf - t0)).checkedInverse = none ↔ tf - t0 = 0) ∧
    (0 < tf - t0 →
      (boundaryMatrix (tf - t0)).checkedInverse = some (boundaryMatrix (tf - t0)).inverse ∧
      (∀ R : Vector3d K,
        (boundaryMatrix (tf - t0)).mulVec ((boundaryMatrix (tf - t0)).inverse.mulVec R) = R ∧
        (boundaryMatrix (tf - t0)).inverse.mulVec ((boundaryMatrix (tf - t0)).mulVec R) = R) ∧
      (∀ time x0 v0 a0 xf vf af : K,
        quintic_spline_checked time t0 tf x0 v0 a0 xf vf af
          = some (quintic_spline time t0 tf x0 v0 a0 xf vf af))) ∧
    (∀ x0 v0 a0 xf vf af : K,
      ¬ (t0 < t0) ∧ ¬ (t0 > t0) ∧
      boundaryMatrix (t0 - t0) = (Matrix3d.mk 0 0 0 0 0 0 0 0 0 : Matrix3d K) ∧
      (Matrix3d.mk 0 0 0 0 0 0 0 0 0 : Matrix3d K).det = 0 ∧
      (Matrix3d.mk 0 0 0 0 0 0 0 0 0 : Matrix3d K).checkedInverse = none ∧
      quintic_spline_checked t0 t0 t0 x0 v0 a0 xf vf af = none) := by
  refine ⟨boundaryMatrix_det _, boundaryMatrix_invertible_iff _,
    boundaryMatrix_checkedInverse_eq_none_iff _, ?_, ?_⟩
  · intro hpos
    refine ⟨boundaryMatrix_checkedInverse_of_ne_zero hpos.ne', fun R => ?_, ?_⟩
    · exact ⟨Matrix3d.mulVec_inverse_mulVec _ (boundaryMatrix_det_ne_zero hpos.ne') R,
        Matrix3d.inverse_mulVec_mulVec _ (boundaryMatrix_det_ne_zero hpos.ne') R⟩
    · intro time x0 v0 a0 xf vf af
      exact quintic_spline_checked_eq_some _ _ _ _ _ _ _ _ _ (Or.inr (Or.inr hpos.ne'))
  · intro x0 v0 a0 xf vf af
    have hz : (Matrix3d.mk 0 0 0 0 0 0 0 0 0 : Matrix3d K).det = 0 := by simp [Matrix3d.det]
    refine ⟨lt_irrefl _, lt_irrefl _, by rw [sub_self, boundaryMatrix_zero], hz, ?_, ?_⟩
    · simp [Matrix3d.checkedInverse, hz]
    · exact (quintic_spline_checked_eq_none_iff _ _ _ _ _ _ _ _ _).mpr ⟨rfl, rfl⟩

theorem boundary_matrix_invertibility_witness :
    (0 : ℚ) < 2 - 0 ∧
    (boundaryMatrix (2 - 0 : ℚ)).checkedInverse = some (boundaryMatrix (2 - 0 : ℚ)).inverse ∧
    (∀ R : Vector3d ℚ,
      (boundaryMatrix (2 - 0 : ℚ)).mulVec ((boundaryMatrix (2 - 0 : ℚ)).inverse.mulVec R) = R ∧
      (boundaryMatrix (2 - 0 : ℚ)).inverse.mulVec ((boundaryMatrix (2 - 0 : ℚ)).mulVec R) = R) ∧
    (∀ time x0 v0 a0 xf vf af : ℚ,
      quintic_spline_checked time 0 2 x0 v0 a0 xf vf af
        = some (quintic_spline time 0 2 x0 v0 a0 xf vf af)) :=
  ⟨by norm_num, (boundary_matrix_invertibility (0 : ℚ) 2).2.2.2.1 (by norm_num)⟩

end CollisionDetectionController

/-! ### Helper lemmas on the orientation snap -/

namespace OrientationAligner

variable {K : Type} [LinearOrderedField K]

theorem minCoeff_le (v : Fin 5 → K) (j : Fin 5) : minCoeff v ≤ v j := by
  unfold minCoeff
  fin_cases j <;> simp

theorem minCoeff_attained (v : Fin 5 → K) : ∃ i, v i = minCoeff v := by
  unfold minCoeff
  rcases min_choice (min (min (min (v 0) (v 1)) (v 2)) (v 3)) (v 4) with h | h
  · rw [h]
    rcases min_choice (min (min (v 0) (v 1)) (v 2)) (v 3) with h | h
    · rw [h]
      rcases min_choice (min (v 0) (v 1)) (v 2) with h | h
      · rw [h]
        rcases min_choice (v 0) (v 1) with h | h
        · exact ⟨0, h.symm⟩
        · exact ⟨1, h.symm⟩
      · exact ⟨2, h.symm⟩
    · exact ⟨3, h.symm⟩
  · exact ⟨4, h.symm⟩

/-- The loop assigns `index`, to the greatest index whose error is the minimum. -/
theorem selectIndex_spec (err : Fin 5 → K) :
    ∃ i, selectIndex err = some i ∧ err i = minCoeff err ∧
      ∀ j, err j = minCoeff err → j ≤ i := by
  unfold selectIndex
  simp only [List.foldl]
  by_cases h4 : err 4 = minCoeff err
  · exact ⟨4, by simp [h4], h4, fun j _ => Fin.le_last j⟩
  by_cases h3 : err 3 = minCoeff err
  · refine ⟨3, by simp [h4, h3], h3, ?_⟩
    intro j hj
    fin_cases j <;> first | decide | exact absurd hj h4
  by_cases h2 : err 2 = minCoeff err
  · refine ⟨2, by simp [h4, h3, h2], h2, ?_⟩
    intro j hj
    fin_cases j <;> first | decide | exact absurd hj h4 | exact absurd hj h3
  by_cases h1 : err 1 = minCoeff err
  · refine ⟨1, by simp [h4, h3, h2, h1], h1, ?_⟩
    intro j hj
    fin_cases j <;> first | decide | exact absurd hj h4 | exact absurd hj h3 | exact absurd hj h2
  by_cases h0 : err 0 = minCoeff err
  · refine ⟨0, by simp [h4, h3, h2, h1, h0], h0, ?_⟩
    intro j hj
    fin_cases j
    · decide
    · exact absurd hj h1
    · exact absurd hj h2
    · exact absurd hj h3
    · exact absurd hj h4
  · exfalso
    obtain ⟨i, hi⟩ := minCoeff_attained err
    fin_cases i
    · exact h0 hi
    · exact h1 hi
    · exact h2 hi
    · exact h3 hi
    · exact h4 hi

/-- The index of a minimal error that no later index ties with is the one selected. -/
theorem selectIndex_eq_some (err : Fin 5 → K) (i : Fin 5) (hmin : ∀ j, err i ≤ err j)
    (hlast : ∀ j, i < j → err j ≠ err i) : selectIndex err = some i := by
  obtain ⟨k, hk, hkmin, hkmax⟩ := selectIndex_spec err
  have hi : err i = minCoeff err := le_antisymm (hkmin ▸ hmin k) (minCoeff_le err i)
  have hik : i ≤ k := hkmax i hi
  rcases eq_or_lt_of_le hik with h | h
  · rw [hk, h]
  · exact absurd (hkmin.trans hi.symm) (hlast k h)

/-- The errors of the five candidates for the angle `c * DEG2RAD`. -/
theorem angle_set_error_deg {d : K} (hd : 0 ≤ d) (c : K) (j : Fin 5) :
    angle_set_error d (c * d) j = |(![-180, -90, 0, 90, 180] : Fin 5 → K) j - c| * d := by
  unfold angle_set_error angle_set_45
  rw [← abs_of_nonneg hd, ← abs_mul, abs_of_nonneg hd]
  fin_cases j <;> simp <;> ring_nf

/-- An angle strictly between 45 and 135 degrees is snapped to 90 degrees. -/
theorem snapAngle_near_90 {d : K} (hd : 0 < d) (c : K) (h1 : 45 < c) (h2 : c < 135) :
    snapAngle d (c * d) = some (90 * d) := by
  have hL : |(90 : K) - c| < 45 := abs_lt.mpr ⟨by linarith, by linarith⟩
  have h : selectIndex (angle_set_error d (c * d)) = some 3 := by
    apply selectIndex_eq_some
    · intro j
      rw [angle_set_error_deg hd.le, angle_set_error_deg hd.le]
      apply mul_le_mul_of_nonneg_right _ hd.le
      fin_cases j
      · exact hL.le.trans (le_trans (by norm_num; linarith) (neg_le_abs _))
      · exact hL.le.trans (le_trans (by norm_num; linarith) (neg_le_abs _))
      · exact hL.le.trans (le_trans (by norm_num; linarith) (neg_le_abs _))
      · exact le_rfl
      · exact hL.le.trans (le_trans (by norm_num; linarith) (le_abs_self _))
    · intro j hj
      rw [angle_set_error_deg hd.le, angle_set_error_deg hd.le]
      intro h
      have h' := mul_right_cancel₀ hd.ne' h
      revert hj h'
      fin_cases j <;> intro hj h' <;> first
        | exact absurd hj (by decide)
        | exact absurd (h' ▸ hL) (not_lt.mpr (le_trans (by norm_num; linarith) (le_abs_self _)))
  simp [snapAngle, h, angle_set_45]

/-- The angle zero is snapped to zero. -/
theorem snapAngle_zero {d : K} (hd : 0 < d) : snapAngle d 0 = some 0 := by
  have h : selectIndex (angle_set_error d (0 * d)) = some 2 := by
    apply selectIndex_eq_some
    · intro j
      rw [angle_set_error_deg hd.le, angle_set_error_deg hd.le]
      apply mul_le_mul_of_nonneg_right _ hd.le
      fin_cases j <;> norm_num
    · intro j hj
      rw [angle_set_error_deg hd.le, angle_set_error_deg hd.le]
      intro h
      have h' := mul_right_cancel₀ hd.ne' h
      revert hj h'
      fin_cases j <;> intro hj h' <;> first
        | exact absurd hj (by decide)
        | norm_num at h'
  rw [zero_mul] at h
  simp [snapAngle, h, angle_set_45]

/-- The snapped value is one of the five candidates and none is nearer. -/
theorem snapAngle_nearest (d angle : K) :
    ∃ y, snapAngle d angle = some y ∧
      (y = -180 * d ∨ y = -90 * d ∨ y = 0 * d ∨ y = 90 * d ∨ y = 180 * d) ∧
      |y - angle| ≤ |-180 * d - angle| ∧ |y - angle| ≤ |-90 * d - angle| ∧
      |y - angle| ≤ |0 * d - angle| ∧ |y - angle| ≤ |90 * d - angle| ∧
      |y - angle| ≤ |180 * d - angle| := by
  obtain ⟨i, hi, hmin, -⟩ := selectIndex_spec (angle_set_error d angle)
  have hle : ∀ j, angle_set_error d angle i ≤ angle_set_error d angle j :=
    fun j => hmin ▸ minCoeff_le _ j
  refine ⟨angle_set_45 d i, by simp [snapAngle, hi], ?_, hle 0, hle 1, hle 2, hle 3, hle 4⟩
  fin_cases i <;> simp [angle_set_45]

theorem selectBranch_upward_iff (d val : K) :
    selectBranch d val = Branch.upward ↔ (val > 0 ∧ 1 - |val| ≤ 0.01 * d) := by
  unfold selectBranch
  by_cases h : val > 0 ∧ 1 - |val| ≤ 0.01 * d
  · rw [if_pos h]
    exact iff_of_true rfl h
  · rw [if_neg h]
    refine iff_of_false ?_ h
    split <;> simp

theorem selectBranch_downward_iff (d val : K) :
    selectBranch d val = Branch.downward ↔ (val < 0 ∧ 1 - |val| ≤ 0.01 * d) := by
  unfold selectBranch
  by_cases h : val > 0 ∧ 1 - |val| ≤ 0.01 * d
  · rw [if_pos h]
    exact iff_of_false (by simp) (fun h2 => absurd h.1 (not_lt.mpr h2.1.le))
  · rw [if_neg h]
    by_cases h2 : val < 0 ∧ 1 - |val| ≤ 0.01 * d
    · rw [if_pos h2]
      exact iff_of_true rfl h2
    · rw [if_neg h2]
      exact iff_of_false (by simp) h2

theorem selectBranch_onXYPlane_iff (d val : K) :
    selectBranch d val = Branch.onXYPlane ↔
      (¬ (val > 0 ∧ 1 - |val| ≤ 0.01 * d) ∧ ¬ (val < 0 ∧ 1 - |val| ≤ 0.01 * d)) := by
  unfold selectBranch
  by_cases h : val > 0 ∧ 1 - |val| ≤ 0.01 * d
  · rw [if_pos h]
    exact iff_of_false (by simp) (fun h2 => h2.1 h)
  · rw [if_neg h]
    by_cases h2 : val < 0 ∧ 1 - |val| ≤ 0.01 * d
    · rw [if_pos h2]
      exact iff_of_false (by simp) (fun h3 => h3.2 h2)
    · rw [if_neg h2]
      exact iff_of_true rfl ⟨h, h2⟩

/-- A rotation with `val = 1` takes the upward branch. -/
theorem selectBranch_one {d : K} (hd : 0 < d) : selectBranch d 1 = Branch.upward := by
  rw [selectBranch_upward_iff]
  refine ⟨one_pos, ?_⟩
  rw [abs_one, sub_self]
  exact mul_nonneg (by norm_num) hd.le

/-- A rotation with `val = -1` takes the downward branch. -/
theorem selectBranch_neg_one {d : K} (hd : 0 < d) : selectBranch d (-1) = Branch.downward := by
  rw [selectBranch_downward_iff]
  refine ⟨by norm_num, ?_⟩
  rw [abs_neg, abs_one, sub_self]
  exact mul_nonneg (by norm_num) hd.le

theorem perpendicularTarget_upward (d : K) (e : Vector3d K) (val : K)
    (h : selectBranch d val = Branch.upward) :
    perpendicularTarget d e val
      = (snapAngle d e.z).map fun yaw => { x := 0, y := 0, z := yaw } := by
  simp only [perpendicularTarget, h]

theorem perpendicularTarget_downward (d : K) (e : Vector3d K) (val : K)
    (h : selectBranch d val = Branch.downward) :
    perpendicularTarget d e val
      = (snapAngle d e.z).map fun yaw =>
          { x := if e.x > 0 then 180 * d else -180 * d, y := 0, z := yaw } := by
  simp only [perpendicularTarget, h]

theorem perpendicularTarget_onXYPlane (d : K) (e : Vector3d K) (val : K)
    (h : selectBranch d val = Branch.onXYPlane) :
    perpendicularTarget d e val
      = (snapAngle d e.y).map fun pitch => { x := e.x, y := pitch, z := e.z } := by
  simp only [perpendicularTarget, h]

end OrientationAligner

/-! ### The claims on `keepOrientationPerpenticular` -/

namespace OrientationAligner

variable {K : Type} [LinearOrderedField K]

/-- C6: for every angle being snapped the selected target is one of the five
canonical angles (-180, -90, 0, 90, 180 degrees), the index having been
assigned, and no canonical angle is nearer to the input; for an upward-facing
initial rotation (`val = 1`) with yaw = 100 degrees the target yaw is 90
degrees. -/
theorem snap_nearest_canonical (d angle roll pitch : K) (hd : 0 < d) :
    (∃ y, snapAngle d angle = some y ∧
      (y = -180 * d ∨ y = -90 * d ∨ y = 0 * d ∨ y = 90 * d ∨ y = 180 * d) ∧
      |y - angle| ≤ |-180 * d - angle| ∧ |y - angle| ≤ |-90 * d - angle| ∧
      |y - angle| ≤ |0 * d - angle| ∧ |y - angle| ≤ |90 * d - angle| ∧
      |y - angle| ≤ |180 * d - angle|) ∧
    perpendicularTarget d { x := roll, y := pitch, z := 100 * d } 1
      = some { x := 0, y := 0, z := 90 * d } := by
  refine ⟨snapAngle_nearest d angle, ?_⟩
  rw [perpendicularTarget_upward _ _ _ (selectBranch_one hd),
    snapAngle_near_90 hd 100 (by norm_num) (by norm_num)]
  rfl

theorem snap_nearest_canonical_witness :
    (0 : ℚ) < 7 / 400 ∧
    perpendicularTarget (7 / 400 : ℚ) { x := 1, y := 2, z := 100 * (7 / 400) } 1
      = some { x := 0, y := 0, z := 90 * (7 / 400) } :=
  ⟨by norm_num, (snap_nearest_canonical (7 / 400) 3 1 2 (by norm_num)).2⟩

/-- C7 as stated fails: with `DEG2RAD = 7/400`, in the downward-facing branch
(`val = -1`) a decomposed roll of exactly zero gives the target roll -180
degrees, not +180 degrees. -/
theorem downward_zero_roll_positive_fails :
    perpendicularTarget (7 / 400 : ℚ) { x := 0, y := 0, z := 0 } (-1)
      = some { x := -180 * (7 / 400), y := 0, z := 0 } ∧
    perpendicularTarget (7 / 400 : ℚ) { x := 0, y := 0, z := 0 } (-1)
      ≠ some { x := 180 * (7 / 400), y := 0, z := 0 } := by
  have hd : (0 : ℚ) < 7 / 400 := by norm_num
  have ht : perpendicularTarget (7 / 400 : ℚ) { x := 0, y := 0, z := 0 } (-1)
      = some { x := -180 * (7 / 400), y := 0, z := 0 } := by
    rw [perpendicularTarget_downward _ _ _ (selectBranch_neg_one hd), snapAngle_zero hd]
    simp
  refine ⟨ht, ?_⟩
  rw [ht]
  norm_num

/-- C7, amended: in the downward-facing branch (`val < 0` and `1 - |val|` within
the threshold) the target pitch is 0, the target yaw is the snapped yaw, and
the target roll is +180 degrees when the decomposed roll is positive and -180
degrees when it is zero or negative. -/
theorem downward_roll_sign (d : K) (e : Vector3d K) (val : K)
    (hv : val < 0) (he : 1 - |val| ≤ 0.01 * d) :
    ∃ yaw, snapAngle d e.z = some yaw ∧
      (e.x > 0 → perpendicularTarget d e val = some { x := 180 * d, y := 0, z := yaw }) ∧
      (e.x ≤ 0 → perpendicularTarget d e val = some { x := -180 * d, y := 0, z := yaw }) := by
  obtain ⟨yaw, hyaw, -⟩ := snapAngle_nearest d e.z
  have hb := (selectBranch_downward_iff d val).mpr ⟨hv, he⟩
  refine ⟨yaw, hyaw, ?_, ?_⟩
  · intro hpos
    rw [perpendicularTarget_downward _ _ _ hb, hyaw, if_pos hpos]
    rfl
  · intro hneg
    rw [perpendicularTarget_downward _ _ _ hb, hyaw, if_neg (not_lt.mpr hneg)]
    rfl

theorem downward_roll_sign_witness :
    ∃ yaw, snapAngle (7 / 400 : ℚ) (Vector3d.mk (0 : ℚ) 1 2).z = some yaw ∧
      ((Vector3d.mk (0 : ℚ) 1 2).x > 0 →
        perpendicularTarget (7 / 400 : ℚ) (Vector3d.mk 0 1 2) (-1)
          = some { x := 180 * (7 / 400), y := 0, z := yaw }) ∧
      ((Vector3d.mk (0 : ℚ) 1 2).x ≤ 0 →
        perpendicularTarget (7 / 400 : ℚ) (Vector3d.mk 0 1 2) (-1)
          = some { x := -180 * (7 / 400), y := 0, z := yaw }) :=
  downward_roll_sign (7 / 400) (Vector3d.mk 0 1 2) (-1) (by norm_num) (by norm_num)

/-- C8: `keepOrientationPerpenticular` takes the upward-facing branch exactly
when `val = initial_rotation_M(2, 2) > 0` and `e = 1 - |val|` is at most
`0.01 * DEG2RAD`; in that branch the target roll and the target pitch are 0
and the target yaw is the snapped value of the decomposed yaw, whatever the
decomposed roll and pitch were. -/
theorem upward_branch (d : K) (e : Vector3d K) (val : K) :
    (selectBranch d val = Branch.upward ↔ (val > 0 ∧ 1 - |val| ≤ 0.01 * d)) ∧
    ((val > 0 ∧ 1 - |val| ≤ 0.01 * d) →
      ∃ yaw, snapAngle d e.z = some yaw ∧
        perpendicularTarget d e val = some { x := 0, y := 0, z := yaw }) := by
  refine ⟨selectBranch_upward_iff d val, fun h => ?_⟩
  obtain ⟨yaw, hyaw, -⟩ := snapAngle_nearest d e.z
  refine ⟨yaw, hyaw, ?_⟩
  rw [perpendicularTarget_upward _ _ _ ((selectBranch_upward_iff d val).mpr h), hyaw]
  rfl

theorem upward_branch_witness :
    ((1 : ℚ) > 0 ∧ 1 - |(1 : ℚ)| ≤ 0.01 * (7 / 400)) ∧
    ∃ yaw, snapAngle (7 / 400 : ℚ) (Vector3d.mk (3 : ℚ) 2 1).z = some yaw ∧
      perpendicularTarget (7 / 400 : ℚ) (Vector3d.mk 3 2 1) 1
        = some { x := 0, y := 0, z := yaw } :=
  ⟨by norm_num,
    (upward_branch (7 / 400 : ℚ) (Vector3d.mk 3 2 1) 1).2 (by norm_num)⟩

/-- C9: whenever neither the upward nor the downward condition holds (so also
for `val = 0` and for every `val` with `1 - |val|` above the threshold), the
target roll and the target yaw are the decomposed roll and yaw unchanged, and
the target pitch is the canonical angle nearest to the decomposed pitch. -/
theorem on_plane_branch (d : K) (e : Vector3d K) (val : K)
    (hup : ¬ (val > 0 ∧ 1 - |val| ≤ 0.01 * d))
    (hdown : ¬ (val < 0 ∧ 1 - |val| ≤ 0.01 * d)) :
    ∃ pitch, perpendicularTarget d e val = some { x := e.x, y := pitch, z := e.z } ∧
      snapAngle d e.y = some pitch ∧
      (pitch = -180 * d ∨ pitch = -90 * d ∨ pitch = 0 * d ∨ pitch = 90 * d ∨
        pitch = 180 * d) ∧
      |pitch - e.y| ≤ |-180 * d - e.y| ∧ |pitch - e.y| ≤ |-90 * d - e.y| ∧
      |pitch - e.y| ≤ |0 * d - e.y| ∧ |pitch - e.y| ≤ |90 * d - e.y| ∧
      |pitch - e.y| ≤ |180 * d - e.y| := by
  obtain ⟨pitch, hpitch, hrest⟩ := snapAngle_nearest d e.y
  refine ⟨pitch, ?_, hpitch, hrest⟩
  rw [perpendicularTarget_onXYPlane _ _ _ ((selectBranch_onXYPlane_iff d val).mpr ⟨hup, hdown⟩),
    hpitch]
  rfl

/-- The hypotheses of C9 hold for `val = 0` and for every `val` with
`1 - |val|` above the threshold. -/
theorem on_plane_conditions (d val : K) (h : val = 0 ∨ 0.01 * d < 1 - |val|) :
    ¬ (val > 0 ∧ 1 - |val| ≤ 0.01 * d) ∧ ¬ (val < 0 ∧ 1 - |val| ≤ 0.01 * d) := by
  rcases h with h | h
  · subst h
    exact ⟨fun h1 => lt_irrefl _ h1.1, fun h1 => lt_irrefl _ h1.1⟩
  · exact ⟨fun h1 => absurd h (not_lt.mpr h1.2), fun h1 => absurd h (not_lt.mpr h1.2)⟩

theorem on_plane_branch_witness :
    ∃ pitch, perpendicularTarget (7 / 400 : ℚ) (Vector3d.mk 3 2 1) 0
        = some { x := (Vector3d.mk (3 : ℚ) 2 1).x, y := pitch, z := (Vector3d.mk (3 : ℚ) 2 1).z } ∧
      snapAngle (7 / 400 : ℚ) (Vector3d.mk (3 : ℚ) 2 1).y = some pitch ∧
      (pitch = -180 * (7 / 400) ∨ pitch = -90 * (7 / 400) ∨ pitch = 0 * (7 / 400) ∨
        pitch = 90 * (7 / 400) ∨ pitch = 180 * (7 / 400)) ∧
      |pitch - (Vector3d.mk (3 : ℚ) 2 1).y| ≤ |-180 * (7 / 400) - (Vector3d.mk (3 : ℚ) 2 1).y| ∧
      |pitch - (Vector3d.mk (3 : ℚ) 2 1).y| ≤ |-90 * (7 / 400) - (Vector3d.mk (3 : ℚ) 2 1).y| ∧
      |pitch - (Vector3d.mk (3 : ℚ) 2 1).y| ≤ |0 * (7 / 400) - (Vector3d.mk (3 : ℚ) 2 1).y| ∧
      |pitch - (Vector3d.mk (3 : ℚ) 2 1).y| ≤ |90 * (7 / 400) - (Vector3d.mk (3 : ℚ) 2 1).y| ∧
      |pitch - (Vector3d.mk (3 : ℚ) 2 1).y| ≤ |180 * (7 / 400) - (Vector3d.mk (3 : ℚ) 2 1).y| :=
  on_plane_branch (7 / 400 : ℚ) (Vector3d.mk 3 2 1) 0 (by norm_num) (by norm_num)

/-- With the cubic of the spec the interpolation starts at the decomposed
angles when `current_time = init_time`. -/
theorem interpolatedAngles_at_init_time (e target : Vector3d K) (duration init_time : K)
    (hd : 0 ≤ duration) :
    interpolatedAngles cubicSpline e target duration init_time init_time = e := by
  have h1 : ¬ init_time < init_time := lt_irrefl _
  have h2 : ¬ init_time > init_time + duration := not_lt.mpr (le_add_of_nonneg_right hd)
  simp only [interpolatedAngles, cubicSpline, h1, h2, if_false, sub_self]
  obtain ⟨ex, ey, ez⟩ := e
  congr 1 <;> ring

/-- With the cubic of the spec the interpolation reaches the targets when
`current_time = init_time + duration`. -/
theorem interpolatedAngles_at_end_time (e target : Vector3d K) (duration init_time : K)
    (hd : 0 < duration) :
    interpolatedAngles cubicSpline e target duration (init_time + duration) init_time
      = target := by
  have h1 : ¬ init_time + duration < init_time := not_lt.mpr (le_add_of_nonneg_right hd.le)
  have h2 : ¬ init_time + duration > init_time + duration := lt_irrefl _
  simp only [interpolatedAngles, cubicSpline, h1, h2, if_false, add_sub_cancel_left]
  obtain ⟨tx, ty, tz⟩ := target
  have hne : duration ≠ 0 := hd.ne'
  congr 1 <;> field_simp <;> ring

/-- C10 as stated fails: with the cubic of the spec, `init_time = 0`,
`current_time = 1`, `duration = 2`, a decomposed roll of 1 and the upward
branch of `keepOrientationPerpenticularOnlyXY` (target roll 0), the code
interpolates over the window `[0, 2]` and obtains `alpha = 1/2`, while the
window `[current_time, current_time + duration] = [1, 3]` would give
`alpha = 1`. -/
theorem window_from_current_time_fails :
    interpolatedAngles cubicSpline (Vector3d.mk (1 : ℚ) 0 0)
        (perpendicularTargetOnlyXY (7 / 400) (Vector3d.mk 1 0 0) 1) 2 1 0
      = { x := 1 / 2, y := 0, z := 0 } ∧
    cubicSpline (1 : ℚ) 1 (1 + 2) 1 0 0 0 = 1 ∧
    (interpolatedAngles cubicSpline (Vector3d.mk (1 : ℚ) 0 0)
        (perpendicularTargetOnlyXY (7 / 400) (Vector3d.mk 1 0 0) 1) 2 1 0).x
      ≠ cubicSpline (1 : ℚ) 1 (1 + 2) 1 0 0 0 := by
  have h1 : interpolatedAngles cubicSpline (Vector3d.mk (1 : ℚ) 0 0)
        (perpendicularTargetOnlyXY (7 / 400) (Vector3d.mk 1 0 0) 1) 2 1 0
      = { x := 1 / 2, y := 0, z := 0 } := by
    simp only [interpolatedAngles, perpendicularTargetOnlyXY, cubicSpline]
    norm_num
  have h2 : cubicSpline (1 : ℚ) 1 (1 + 2) 1 0 0 0 = 1 := by
    simp only [cubicSpline]
    norm_num
  refine ⟨h1, h2, ?_⟩
  rw [h1, h2]
  norm_num

/-- C10, amended: in `keepOrientationPerpenticular` and
`keepOrientationPerpenticularOnlyXY`, each of roll, pitch and yaw is passed to
the cubic primitive evaluated at `current_time` over the window
`[init_time, init_time + duration]`, from its decomposed value to its target,
with both boundary rates equal to zero. -/
theorem interpolation_window (D : DyrosMath K) (initial_rotation_M rotation_M : Matrix3d K)
    (current_velocity : Fin 6 → K) (duration current_time init_time : K) :
    keepOrientationPerpenticular D initial_rotation_M rotation_M current_velocity
        duration current_time init_time
      = (perpendicularTarget D.DEG2RAD (D.rot2Euler initial_rotation_M)
          initial_rotation_M.m22).map (fun target =>
            moment D 250.0 rotation_M current_velocity
              { x := D.cubic current_time init_time (init_time + duration)
                  (D.rot2Euler initial_rotation_M).x target.x 0 0
                y := D.cubic current_time init_time (init_time + duration)
                  (D.rot2Euler initial_rotation_M).y target.y 0 0
                z := D.cubic current_time init_time (init_time + duration)
                  (D.rot2Euler initial_rotation_M).z target.z 0 0 }) ∧
    keepOrientationPerpenticularOnlyXY D initial_rotation_M rotation_M current_velocity
        duration current_time init_time
      = moment D 400.0 rotation_M current_velocity
          { x := D.cubic current_time init_time (init_time + duration)
              (D.rot2Euler initial_rotation_M).x
              (perpendicularTargetOnlyXY D.DEG2RAD (D.rot2Euler initial_rotation_M)
                initial_rotation_M.m22).x 0 0
            y := D.cubic current_time init_time (init_time + duration)
              (D.rot2Euler initial_rotation_M).y
              (perpendicularTargetOnlyXY D.DEG2RAD (D.rot2Euler initial_rotation_M)
                initial_rotation_M.m22).y 0 0
            z := D.cubic current_time init_time (init_time + duration)
              (D.rot2Euler initial_rotation_M).z
              (perpendicularTargetOnlyXY D.DEG2RAD (D.rot2Euler initial_rotation_M)
                initial_rotation_M.m22).z 0 0 } :=
  ⟨rfl, rfl⟩

/-! ### The moment and the XY-only variant -/

/-- The moment of the code is the spring-damper law of the spec. -/
theorem moment_eq_springDamper (D : DyrosMath K) (gain : K) (rotation_M : Matrix3d K)
    (current_velocity : Fin 6 → K) (angles : Vector3d K) :
    moment D gain rotation_M current_velocity angles
      = springDamper gain 5 (rotationError D rotation_M angles)
          (angularVelocity current_velocity) := by
  simp only [moment, springDamper, rotationError, angularVelocity, Vector3d.add, Vector3d.smul,
    Vector3d.neg]
  congr 1 <;> norm_num <;> ring

/-- The `if` chain of `keepOrientationPerpenticular` always yields targets. -/
theorem perpendicularTarget_isSome (d : K) (e : Vector3d K) (val : K) :
    ∃ target, perpendicularTarget d e val = some target := by
  obtain ⟨yaw, hyaw, -⟩ := snapAngle_nearest d e.z
  obtain ⟨pitch, hpitch, -⟩ := snapAngle_nearest d e.y
  cases hb : selectBranch d val with
  | upward => exact ⟨_, by rw [perpendicularTarget_upward _ _ _ hb, hyaw]; rfl⟩
  | downward => exact ⟨_, by rw [perpendicularTarget_downward _ _ _ hb, hyaw]; rfl⟩
  | onXYPlane => exact ⟨_, by rw [perpendicularTarget_onXYPlane _ _ _ hb, hpitch]; rfl⟩

/-- C11: for every input `keepOrientationPerpenticular` returns the moment
`Kp * rotationError - Kd * angularVelocity` with `rotationError = -0.5 * getPhi`
of the current and the target rotation, `angularVelocity` the last three
coefficients of `current_velocity`, `Kp = 250` and `Kd = 5`;
`keepOrientationPerpenticularOnlyXY` returns the same expression with
`Kp = 400` and `Kd = 5`; when the rotation error is zero the moment is -5 times
the angular velocity. -/
theorem moment_spring_damper (D : DyrosMath K) (initial_rotation_M rotation_M : Matrix3d K)
    (current_velocity : Fin 6 → K) (duration current_time init_time : K) :
    (∃ target,
      perpendicularTarget D.DEG2RAD (D.rot2Euler initial_rotation_M) initial_rotation_M.m22
        = some target ∧
      keepOrientationPerpenticular D initial_rotation_M rotation_M current_velocity
          duration current_time init_time
        = some (springDamper 250 5
            (rotationError D rotation_M
              (interpolatedAngles D.cubic (D.rot2Euler initial_rotation_M) target
                duration current_time init_time))
            (angularVelocity current_velocity)) ∧
      (rotationError D rotation_M
          (interpolatedAngles D.cubic (D.rot2Euler initial_rotation_M) target
            duration current_time init_time) = { x := 0, y := 0, z := 0 } →
        keepOrientationPerpenticular D initial_rotation_M rotation_M current_velocity
            duration current_time init_time
          = some { x := -5 * current_velocity 3, y := -5 * current_velocity 4,
                   z := -5 * current_velocity 5 })) ∧
    keepOrientationPerpenticularOnlyXY D initial_rotation_M rotation_M current_velocity
        duration current_time init_time
      = springDamper 400 5
          (rotationError D rotation_M
            (interpolatedAngles D.cubic (D.rot2Euler initial_rotation_M)
              (perpendicularTargetOnlyXY D.DEG2RAD (D.rot2Euler initial_rotation_M)
                initial_rotation_M.m22) duration current_time init_time))
          (angularVelocity current_velocity) ∧
    (rotationError D rotation_M
        (interpolatedAngles D.cubic (D.rot2Euler initial_rotation_M)
          (perpendicularTargetOnlyXY D.DEG2RAD (D.rot2Euler initial_rotation_M)
            initial_rotation_M.m22) duration current_time init_time)
        = { x := 0, y := 0, z := 0 } →
      keepOrientationPerpenticularOnlyXY D initial_rotation_M rotation_M current_velocity
          duration current_time init_time
        = { x := -5 * current_velocity 3, y := -5 * current_velocity 4,
            z := -5 * current_velocity 5 }) := by
  obtain ⟨target, ht⟩ := perpendicularTarget_isSome D.DEG2RAD (D.rot2Euler initial_rotation_M)
    initial_rotation_M.m22
  have h250 : (250.0 : K) = 250 := by norm_num
  have h400 : (400.0 : K) = 400 := by norm_num
  have hk : keepOrientationPerpenticular D initial_rotation_M rotation_M current_velocity
          duration current_time init_time
        = some (springDamper 250 5
            (rotationError D rotation_M
              (interpolatedAngles D.cubic (D.rot2Euler initial_rotation_M) target
                duration current_time init_time))
            (angularVelocity current_velocity)) := by
    simp only [keepOrientationPerpenticular, ht, Option.map_some', moment_eq_springDamper, h250]
  have hxy : keepOrientationPerpenticularOnlyXY D initial_rotation_M rotation_M current_velocity
        duration current_time init_time
      = springDamper 400 5
          (rotationError D rotation_M
            (interpolatedAngles D.cubic (D.rot2Euler initial_rotation_M)
              (perpendicularTargetOnlyXY D.DEG2RAD (D.rot2Euler initial_rotation_M)
                initial_rotation_M.m22) duration current_time init_time))
          (angularVelocity current_velocity) := by
    simp only [keepOrientationPerpenticularOnlyXY, moment_eq_springDamper, h400]
  refine ⟨⟨target, ht, hk, fun h0 => ?_⟩, hxy, fun h0 => ?_⟩
  · rw [hk, h0]
    simp [springDamper, angularVelocity]
  · rw [hxy, h0]
    simp [springDamper, angularVelocity]

theorem moment_spring_damper_witness :
    keepOrientationPerpenticularOnlyXY zeroPhiMath (Matrix3d.mk 1 0 0 0 1 0 0 0 1)
        (Matrix3d.mk 1 0 0 0 1 0 0 0 1) ![1, 2, 3, 4, 5, 6] 2 1 0
      = { x := -5 * (![1, 2, 3, 4, 5, 6] : Fin 6 → ℚ) 3
          y := -5 * (![1, 2, 3, 4, 5, 6] : Fin 6 → ℚ) 4
          z := -5 * (![1, 2, 3, 4, 5, 6] : Fin 6 → ℚ) 5 } :=
  (moment_spring_damper zeroPhiMath (Matrix3d.mk 1 0 0 0 1 0 0 0 1)
    (Matrix3d.mk 1 0 0 0 1 0 0 0 1) ![1, 2, 3, 4, 5, 6] 2 1 0).2.2
    (by simp [rotationError, zeroPhiMath, Vector3d.smul])

/-- C18: `keepOrientationPerpenticularOnlyXY` never changes the yaw target: the
target yaw is the decomposed yaw and the target pitch is 0; the branch depends
on the sign of `val = initial_rotation_M(2, 2)` alone, with target roll 0 when
`val > 0` and, when `val ≤ 0` (so also for `val = 0`), target roll +180 degrees
for a positive decomposed roll and -180 degrees otherwise. -/
theorem only_xy_targets (d : K) (e : Vector3d K) (val : K) :
    (perpendicularTargetOnlyXY d e val).z = e.z ∧
    (perpendicularTargetOnlyXY d e val).y = 0 ∧
    (val > 0 → (perpendicularTargetOnlyXY d e val).x = 0) ∧
    (val ≤ 0 → e.x > 0 → (perpendicularTargetOnlyXY d e val).x = 180 * d) ∧
    (val ≤ 0 → e.x ≤ 0 → (perpendicularTargetOnlyXY d e val).x = -180 * d) ∧
    ((perpendicularTargetOnlyXY d e 0).x = if e.x > 0 then 180 * d else -180 * d) := by
  unfold perpendicularTargetOnlyXY
  refine ⟨?_, ?_, ?_, ?_, ?_, ?_⟩
  · split <;> rfl
  · split <;> rfl
  · intro hv
    rw [if_pos hv]
  · intro hv hr
    rw [if_neg (not_lt.mpr hv)]
    simp only [if_pos hr]
  · intro hv hr
    rw [if_neg (not_lt.mpr hv)]
    simp only [if_neg (not_lt.mpr hr)]
  · rw [if_neg (lt_irrefl _)]

theorem only_xy_targets_witness :
    (perpendicularTargetOnlyXY (7 / 400 : ℚ) (Vector3d.mk 1 2 3) 0).x = 180 * (7 / 400) ∧
    (perpendicularTargetOnlyXY (7 / 400 : ℚ) (Vector3d.mk 0 2 3) (-1 / 2)).x
      = -180 * (7 / 400) ∧
    (perpendicularTargetOnlyXY (7 / 400 : ℚ) (Vector3d.mk 1 2 3) (1 / 2)).x = 0 :=
  ⟨(only_xy_targets (7 / 400 : ℚ) (Vector3d.mk 1 2 3) 0).2.2.2.1 (by norm_num) (by norm_num),
    (only_xy_targets (7 / 400 : ℚ) (Vector3d.mk 0 2 3) (-1 / 2)).2.2.2.2.1
      (by norm_num) (by norm_num),
    (only_xy_targets (7 / 400 : ℚ) (Vector3d.mk 1 2 3) (1 / 2)).2.2.1 (by norm_num)⟩

end OrientationAligner

/-! ### The claims on `init`, `update` and `exec` -/

namespace CollisionDetectionController

variable {K : Type} [LinearOrderedField K]

theorem vectorAt_of_lt {α : Type} (v : List α) (i : Int) (h0 : 0 ≤ i) (h1 : i < v.length) :
    ∃ a, vectorAt v i = some a := by
  have h : i.toNat < v.length := by omega
  exact ⟨v[i.toNat], by simp [vectorAt, h0, List.getElem?_eq_getElem h]⟩

theorem vectorAt_isSome_iff {α : Type} (v : List α) (i : Int) :
    (∃ a, vectorAt v i = some a) ↔ (0 ≤ i ∧ i < v.length) := by
  constructor
  · rintro ⟨a, h⟩
    unfold vectorAt at h
    by_cases h0 : 0 ≤ i
    · rw [if_pos h0] at h
      have := (List.getElem?_eq_some.mp h).1
      exact ⟨h0, by omega⟩
    · rw [if_neg h0] at h
      exact absurd h (by simp)
  · rintro ⟨h0, h1⟩
    exact vectorAt_of_lt v i h0 h1

/-- A write to the empty vector is out of bounds. -/
theorem vectorSet_nil {α : Type} (i : Nat) (a : α) : vectorSet ([] : List α) i a = none := by
  simp [vectorSet]

/-- On the empty `cmd` the body of the spline loop fails, whatever it has read. -/
theorem splineStep_nil (points : List (JointTrajectoryPoint K)) (waypoint : Int)
    (current_time t0 tf x_f x_dot_f x_ddot_f : K) (i : Nat) :
    splineStep points waypoint current_time t0 tf x_f x_dot_f x_ddot_f [] i = none := by
  unfold splineStep
  cases splineStart points waypoint i <;> simp [vectorSet_nil]

/-- Whenever `exec` does not hand over to `rest`, it accesses a vector out of
bounds: at the latest the write `cmd[0]` to the empty `cmd`. -/
theorem exec_eq_none_of_running (c c1 : Controller K) (current_time x_f x_dot_f x_ddot_f : K)
    (hstart : execStart c current_time = some c1) (hrun : ¬ current_time > c1.end_time) :
    exec c current_time x_f x_dot_f x_ddot_f = none := by
  unfold exec
  simp only [hstart, Option.some_bind, if_neg hrun]
  cases searchWaypoint c1.points c1.start_time current_time c1.waypoints c1.waypoint with
  | none => rfl
  | some w =>
    simp only [Option.some_bind]
    cases vectorAt c1.points (w - 1) with
    | none => rfl
    | some p0 =>
      simp only [Option.some_bind]
      cases vectorAt c1.points (w - 1 + 1) with
      | none => rfl
      | some p1 =>
        simp only [Option.some_bind, List.foldlM_cons, splineStep_nil]
        rfl

/-- The search loop stops at the first waypoint after `w` whose time is later
than `current_time`, provided there is one, and reads within bounds. -/
theorem searchWaypoint_found (points : List (JointTrajectoryPoint K)) (start_time current_time : K)
    (m : Nat) : ∀ (w k : Int), 0 ≤ w → w < k → k < points.length → (k - w).toNat ≤ m →
    (∃ p, vectorAt points k = some p ∧ current_time < p.time_from_start + start_time) →
    ∃ k0 p, w < k0 ∧ k0 ≤ k ∧
      searchWaypoint points start_time current_time points.length w = some k0 ∧
      vectorAt points k0 = some p ∧ current_time < p.time_from_start + start_time ∧
      ∀ j, w < j → j < k0 →
        ∃ pj, vectorAt points j = some pj ∧ pj.time_from_start + start_time ≤ current_time := by
  induction m with
  | zero =>
    intro w k _ hwk _ hm _
    omega
  | succ m ih =>
    intro w k hw hwk hkn hm hk
    have hwn : w < (points.length : Int) := lt_trans hwk hkn
    obtain ⟨p, hp⟩ := vectorAt_of_lt points (w + 1) (by omega) (by omega)
    rw [searchWaypoint, if_pos hwn, hp]
    by_cases hlt : current_time < p.time_from_start + start_time
    · refine ⟨w + 1, p, by omega, by omega, by simp [hlt], hp, hlt, ?_⟩
      intro j h1 h2
      omega
    · have hne : w + 1 ≠ k := by
        rintro rfl
        obtain ⟨pk, hpk, hk'⟩ := hk
        rw [hp] at hpk
        cases hpk
        exact hlt hk'
      obtain ⟨k0, p0, h1, h2, h3, h4, h5, h6⟩ :=
        ih (w + 1) k (by omega) (by omega) hkn (by omega) hk
      refine ⟨k0, p0, by omega, h2, by simp [hlt, h3], h4, h5, ?_⟩
      intro j hj1 hj2
      by_cases hj : j = w + 1
      · subst hj
        exact ⟨p, hp, not_lt.mp hlt⟩
      · exact h6 j (by omega) hj2

/-- Before the end time the search leaves, after the decrement, a waypoint
interval that holds `current_time`, and reads within bounds. -/
theorem searchWaypoint_interval (points : List (JointTrajectoryPoint K))
    (start_time current_time : K) (w : Int) (pw pl : JointTrajectoryPoint K)
    (hpw : vectorAt points w = some pw) (hle : pw.time_from_start + start_time ≤ current_time)
    (hpl : vectorAt points ((points.length : Int) - 1) = some pl)
    (hlt : current_time < pl.time_from_start + start_time) :
    ∃ k0 p0 p1, searchWaypoint points start_time current_time points.length w = some k0 ∧
      (k0 - 1) + 1 ≤ (points.length : Int) - 1 ∧
      vectorAt points (k0 - 1) = some p0 ∧ vectorAt points (k0 - 1 + 1) = some p1 ∧
      p0.time_from_start + start_time ≤ current_time ∧
      current_time < p1.time_from_start + start_time := by
  obtain ⟨hw0, hwn⟩ := (vectorAt_isSome_iff points w).mp ⟨pw, hpw⟩
  have hne : w ≠ (points.length : Int) - 1 := by
    rintro rfl
    rw [hpw] at hpl
    cases hpl
    exact absurd hle (not_le.mpr hlt)
  obtain ⟨k0, p1, h1, h2, h3, h4, h5, h6⟩ :=
    searchWaypoint_found points start_time current_time _ w ((points.length : Int) - 1)
      hw0 (by omega) (by omega) le_rfl ⟨pl, hpl, hlt⟩
  by_cases hk : k0 - 1 = w
  · exact ⟨k0, pw, p1, h3, by omega, by rw [hk]; exact hpw, by simpa using h4, hle, h5⟩
  · obtain ⟨pj, hpj, hj⟩ := h6 (k0 - 1) (by omega) (by omega)
    exact ⟨k0, pj, p1, h3, by omega, hpj, by simpa using h4, hj, h5⟩

/-- When no waypoint after `w` has a time later than `current_time`, the search
loop goes on to read `points[waypoints]`, out of bounds. -/
theorem searchWaypoint_overrun (points : List (JointTrajectoryPoint K))
    (start_time current_time : K) (m : Nat) : ∀ (w : Int), 0 ≤ w → w < points.length →
    ((points.length : Int) - w).toNat ≤ m →
    (∀ j p, w < j → vectorAt points j = some p →
      ¬ current_time < p.time_from_start + start_time) →
    searchWaypoint points start_time current_time points.length w = none := by
  induction m with
  | zero =>
    intro w _ hwn hm _
    omega
  | succ m ih =>
    intro w hw hwn hm hall
    rw [searchWaypoint, if_pos hwn]
    cases hp : vectorAt points (w + 1) with
    | none => rfl
    | some p =>
      have hb := ((vectorAt_isSome_iff points (w + 1)).mp ⟨p, hp⟩).2
      simp only [if_neg (hall (w + 1) p (by omega) hp)]
      exact ih (w + 1) (by omega) hb (by omega)
        (fun j pj hj hpj => hall j pj (by omega) hpj)

/-- C13: `init` returns false, with no hardware handle acquired and the mode
fields not set, whenever the parameter `arm_id` is missing, the parameter
`joint_names` is missing, or `joint_names` does not have exactly 7 entries; it
returns true only if `joint_names` has exactly 7 entries. -/
theorem init_rejects_bad_parameters (env : InitEnvironment) :
    ((env.arm_id = none ∨ env.joint_names = none ∨
        ∃ names, env.joint_names = some names ∧ names.length ≠ 7) →
      init env =
        { result := false, model_handle_ := none, state_handle_ := none, joint_handles_ := [],
          ft_handle_open := false, ft232h := none, log_open := false,
          mode_fields_set := false }) ∧
    ((init env).result = true →
      ∃ names, env.joint_names = some names ∧ names.length = 7) := by
  constructor
  · rintro (h | h | ⟨names, h, hlen⟩)
    · simp only [init, h]
    · unfold init
      cases env.arm_id <;> simp only [h]
    · unfold init
      cases env.arm_id <;> simp only [h, hlen, ne_eq, not_false_eq_true, if_true]
  · intro hres
    unfold init at hres
    cases harm : env.arm_id with
    | none => simp [harm] at hres
    | some arm_id =>
      cases hj : env.joint_names with
      | none => simp [harm, hj] at hres
      | some names =>
        refine ⟨names, rfl, ?_⟩
        by_contra hlen
        simp [harm, hj, hlen] at hres

theorem init_rejects_bad_parameters_witness :
    init { arm_id := some "panda", joint_names := some ["j1", "j2", "j3"],
           has_model_interface := true, model_handle_found := fun _ => true,
           has_state_interface := true, state_handle_found := fun _ => true,
           has_effort_joint_interface := true, joint_handle_found := fun _ => true,
           ft_ok := fun _ => true, num_devs := 1, log_opens := true } =
      { result := false, model_handle_ := none, state_handle_ := none, joint_handles_ := [],
        ft_handle_open := false, ft232h := none, log_open := false,
        mode_fields_set := false } :=
  (init_rejects_bad_parameters
    { arm_id := some "panda", joint_names := some ["j1", "j2", "j3"],
      has_model_interface := true, model_handle_found := fun _ => true,
      has_state_interface := true, state_handle_found := fun _ => true,
      has_effort_joint_interface := true, joint_handle_found := fun _ => true,
      ft_ok := fun _ => true, num_devs := 1, log_opens := true }).1
    (Or.inr (Or.inr ⟨["j1", "j2", "j3"], rfl, by decide⟩))

/-- With seven joint names and every outside step succeeding, `init` returns
true, holds the seven joint handles and has set the mode fields. -/
theorem init_succeeds_example :
    init { arm_id := some "panda", joint_names := some ["j1", "j2", "j3", "j4", "j5", "j6", "j7"],
           has_model_interface := true, model_handle_found := fun _ => true,
           has_state_interface := true, state_handle_found := fun _ => true,
           has_effort_joint_interface := true, joint_handle_found := fun _ => true,
           ft_ok := fun _ => true, num_devs := 1, log_opens := true } =
      { result := true, model_handle_ := some "panda_model", state_handle_ := some "panda_robot",
        joint_handles_ := ["j1", "j2", "j3", "j4", "j5", "j6", "j7"],
        ft_handle_open := true, ft232h := some true, log_open := true,
        mode_fields_set := true } := by
  decide

/-- C12: in every mode the command of `update` is
`mass_matrix * (Kp * (q_desired - q) + Kv * (qd_desired - qd)) + coriolis` with
`Kp = 1500` and `Kv = 10`, for the `q_desired`, `qd_desired` that the handler
of the mode (`wait`, `exec`, `rest`) returns, and joint `i` receives the
coefficient `i`; when `q_desired = q` and `qd_desired = qd` the command is the
Coriolis vector. -/
theorem update_torque_law (c : Controller K) (mass_matrix : Fin 7 → Fin 7 → K)
    (coriolis q qd : Fin 7 → K) (current_time x_f x_dot_f x_ddot_f : K) :
    update c mass_matrix coriolis q qd current_time x_f x_dot_f x_ddot_f
      = (dispatch c q current_time x_f x_dot_f x_ddot_f).map (fun r =>
          (r.1, fun i => (∑ j, mass_matrix i j *
            (1500 * (r.2.1 j - q j) + 10 * (r.2.2 j - qd j))) + coriolis i)) ∧
    (c.mode = MODE.WAIT →
      update c mass_matrix coriolis q qd current_time x_f x_dot_f x_ddot_f
        = some ((wait c q).1, fun i => (∑ j, mass_matrix i j *
            (1500 * (q j - q j) + 10 * (0 - qd j))) + coriolis i)) ∧
    (c.mode = MODE.EXEC →
      update c mass_matrix coriolis q qd current_time x_f x_dot_f x_ddot_f
        = (exec c current_time x_f x_dot_f x_ddot_f).map (fun r =>
          (r.1, fun i => (∑ j, mass_matrix i j *
            (1500 * (r.2.1 j - q j) + 10 * (r.2.2 j - qd j))) + coriolis i))) ∧
    (c.mode = MODE.REST →
      update c mass_matrix coriolis q qd current_time x_f x_dot_f x_ddot_f
        = (rest c current_time).map (fun r =>
          (r.1, fun i => (∑ j, mass_matrix i j *
            (1500 * (r.2.1 j - q j) + 10 * (r.2.2 j - qd j))) + coriolis i))) ∧
    (∀ c1 q_desired qd_desired,
      dispatch c q current_time x_f x_dot_f x_ddot_f = some (c1, q_desired, qd_desired) →
      q_desired = q → qd_desired = qd →
      update c mass_matrix coriolis q qd current_time x_f x_dot_f x_ddot_f
        = some (c1, coriolis)) := by
  have hlaw : update c mass_matrix coriolis q qd current_time x_f x_dot_f x_ddot_f
      = (dispatch c q current_time x_f x_dot_f x_ddot_f).map (fun r =>
          (r.1, fun i => (∑ j, mass_matrix i j *
            (1500 * (r.2.1 j - q j) + 10 * (r.2.2 j - qd j))) + coriolis i)) := rfl
  refine ⟨hlaw, ?_, ?_, ?_, ?_⟩
  · intro hm
    rw [hlaw]
    simp only [dispatch, hm, Option.map_some']
    rfl
  · intro hm
    rw [hlaw]
    simp only [dispatch, hm]
  · intro hm
    rw [hlaw]
    simp only [dispatch, hm]
  · intro c1 q_desired qd_desired hd hq hqd
    rw [hlaw, hd, hq, hqd]
    simp

/-- In the mode `REST` with the plan of two waypoints, `rest` returns the last
waypoint as the desired state. -/
theorem dispatch_rest_example (q : Fin 7 → ℚ) :
    dispatch (freshController MODE.REST) q 5 0 0 0
      = some ({ freshController MODE.REST with
                  resting := true, start_time := 5, end_time := 5 + 1.0 },
              fun _ => 20, fun _ => 21) := by
  have h1 : Int.toNat 1 = 1 := rfl
  have hq : readJoints ([20, 20, 20, 20, 20, 20, 20] : List ℚ) = some (fun _ => 20) := by
    simp only [readJoints, List.length_cons, List.length_nil]
    rw [dif_pos (by norm_num)]
    congr 1
    funext i
    fin_cases i <;> rfl
  have hqd : readJoints ([21, 21, 21, 21, 21, 21, 21] : List ℚ) = some (fun _ => 21) := by
    simp only [readJoints, List.length_cons, List.length_nil]
    rw [dif_pos (by norm_num)]
    congr 1
    funext i
    fin_cases i <;> rfl
  have hp : vectorAt twoPointPlan ((2 : Int) - 1)
      = some { positions := [20, 20, 20, 20, 20, 20, 20],
               velocities := [21, 21, 21, 21, 21, 21, 21],
               accelerations := [22, 22, 22, 22, 22, 22, 22], time_from_start := 1 } := by
    norm_num [vectorAt, twoPointPlan, h1]
  have hgt : ¬ ((5 : ℚ) > 5 + 1.0) := by norm_num
  simp only [dispatch, rest, freshController, Bool.not_false, if_true, hgt, if_false, hp,
    Option.some_bind, hq, hqd, Option.map_some']

theorem update_torque_law_witness :
    update (freshController MODE.REST) (fun i j => if i = j then 2 else 0) (fun _ => 3)
        (fun _ => 20) (fun _ => 21) 5 0 0 0
      = some ({ freshController MODE.REST with
                  resting := true, start_time := 5, end_time := 5 + 1.0 },
              fun _ => 3) :=
  (update_torque_law (freshController MODE.REST) (fun i j => if i = j then 2 else 0)
    (fun _ => 3) (fun _ => 20) (fun _ => 21) 5 0 0 0).2.2.2.2 _ _ _
    (dispatch_rest_example _) rfl rfl

/-- C14: in `exec`, for every joint `i`, the start boundary values passed to
`quintic_spline` are first assigned from the waypoint `waypoint` and then
overwritten with those of the waypoint `waypoint + 1` before the call: the
values handed to the spline are those of the end waypoint of the interval,
whatever those of its start waypoint are. -/
theorem spline_start_is_next_waypoint (points : List (JointTrajectoryPoint K)) (waypoint : Int)
    (i : Nat) (p0 p1 : JointTrajectoryPoint K) (x0 v0 a0 x1 v1 a1 : K)
    (h0 : vectorAt points waypoint = some p0) (h1 : vectorAt points (waypoint + 1) = some p1)
    (hx0 : p0.positions[i]? = some x0) (hv0 : p0.velocities[i]? = some v0)
    (ha0 : p0.accelerations[i]? = some a0)
    (hx1 : p1.positions[i]? = some x1) (hv1 : p1.velocities[i]? = some v1)
    (ha1 : p1.accelerations[i]? = some a1)
    (current_time t0 tf x_f x_dot_f x_ddot_f : K) (cmd : List (Vector3d K)) :
    splineStart points waypoint i = some (x1, v1, a1) ∧
    splineStep points waypoint current_time t0 tf x_f x_dot_f x_ddot_f cmd i
      = vectorSet cmd i (quintic_spline current_time t0 tf x1 v1 a1 x_f x_dot_f x_ddot_f) := by
  have hs : splineStart points waypoint i = some (x1, v1, a1) := by
    simp [splineStart, h0, h1, hx0, hv0, ha0, hx1, hv1, ha1]
  exact ⟨hs, by simp [splineStep, hs]⟩

theorem spline_start_is_next_waypoint_witness :
    splineStart twoPointPlan 0 3 = some (20, 21, 22) ∧
    splineStep twoPointPlan 0 (21 / 2) 10 11 0 0 0 [] 3
      = vectorSet [] 3 (quintic_spline (21 / 2 : ℚ) 10 11 20 21 22 0 0 0) :=
  spline_start_is_next_waypoint twoPointPlan 0 3
    { positions := [10, 10, 10, 10, 10, 10, 10], velocities := [11, 11, 11, 11, 11, 11, 11],
      accelerations := [12, 12, 12, 12, 12, 12, 12], time_from_start := 0 }
    { positions := [20, 20, 20, 20, 20, 20, 20], velocities := [21, 21, 21, 21, 21, 21, 21],
      accelerations := [22, 22, 22, 22, 22, 22, 22], time_from_start := 1 }
    10 11 12 20 21 22 rfl rfl rfl rfl rfl rfl rfl rfl (21 / 2) 10 11 0 0 0 []

/-- C16 fails at `current_time = end_time`: for the plan of two waypoints at the
times 0 and 1, `start_time = 0`, the stored index 0 and `current_time = 1`, the
guard `current_time > end_time` is false, the time of waypoint 0 is not later
than `current_time`, and the search loop goes on to read `points[2]`, which is
out of bounds. -/
theorem waypoint_search_reads_past_end :
    ¬ ((1 : ℚ) > 1 + 0) ∧ (0 : ℚ) + 0 ≤ 1 ∧
    vectorAt twoPointPlan (1 + 1) = none ∧
    searchWaypoint twoPointPlan 0 1 2 0 = none := by
  have h1 : Int.toNat 1 = 1 := rfl
  have h2 : Int.toNat 2 = 2 := rfl
  refine ⟨by norm_num, by norm_num, by norm_num [vectorAt, twoPointPlan, h2], ?_⟩
  rw [searchWaypoint]
  norm_num [vectorAt, twoPointPlan, h1]
  rw [searchWaypoint]
  norm_num [vectorAt, h2]

/-- C17 fails whenever `exec` reaches the spline loop: for the plan of two
waypoints and a first call at `current_time = 10`, the search and the reads of
the waypoints succeed, and the write `cmd[0]` is out of bounds because `cmd`
is empty. -/
theorem exec_writes_to_empty_cmd :
    searchWaypoint twoPointPlan 10 10 2 0 = some 1 ∧
    splineStart twoPointPlan 0 0 = some (20, 21, 22) ∧
    vectorSet ([] : List (Vector3d ℚ)) 0 (quintic_spline 10 10 11 20 21 22 0 0 0) = none ∧
    exec (freshController MODE.EXEC) 10 0 0 0 = none := by
  have h1 : Int.toNat 1 = 1 := rfl
  refine ⟨?_, by decide, vectorSet_nil _ _, ?_⟩
  · rw [searchWaypoint]
    norm_num [vectorAt, twoPointPlan, h1]
  · have hstart : execStart (freshController MODE.EXEC) 10
        = some { freshController MODE.EXEC with
            start_time := 10, waypoints := 2, waypoint := 0, end_time := 1 + 10,
            executing := true } := by
      simp [execStart, freshController, vectorAt, twoPointPlan]
    exact exec_eq_none_of_running _ _ 10 0 0 0 hstart (by norm_num)

end CollisionDetectionController
